import Mathlib

/-!
Shallow embedding of the `dronesim` simulation core in Lean 4, together with
proofs and refutations of the specification claims.

Python floats are modeled as real numbers (`ℝ`); Python `int(x)` (truncation
toward zero), the float `%` operator (result has the sign of the divisor) and
`math.atan2` / `math.radians` / `math.degrees` are modeled explicitly below.
Python dictionaries are modeled as insertion-ordered association lists:
updating an existing key replaces its value in place, a new key is appended at
the end, exactly as CPython preserves insertion order.  Python sets of small
integers are modeled as `Finset`.
-/

namespace DroneSim

/-- Python `int(x)` for a float `x`: truncation toward zero. -/
noncomputable def pyInt (x : ℝ) : ℤ := if 0 ≤ x then ⌊x⌋ else ⌈x⌉

/-- Python `a % b` on floats for `b > 0`: the representative of `a` modulo `b`
with the sign of `b`, i.e. `a - b * ⌊a / b⌋`. -/
noncomputable def pyMod (a b : ℝ) : ℝ := a - b * ⌊a / b⌋

/-- Python `math.radians`. -/
noncomputable def radians (d : ℝ) : ℝ := d * (Real.pi / 180)

/-- Python `math.degrees`. -/
noncomputable def degrees (r : ℝ) : ℝ := r * (180 / Real.pi)

/-- Python `math.atan2 y x` (note the argument order: `y` first). -/
noncomputable def atan2 (y x : ℝ) : ℝ :=
  if 0 < x then Real.arctan (y / x)
  else if x < 0 then
    (if 0 ≤ y then Real.arctan (y / x) + Real.pi else Real.arctan (y / x) - Real.pi)
  else (if 0 < y then Real.pi / 2 else if y < 0 then -(Real.pi / 2) else 0)

/-- First-match lookup in an insertion-ordered association list
(Python `d[k]` / `k in d`). -/
def alookup {α β : Type} [DecidableEq α] : List (α × β) → α → Option β
  | [], _ => none
  | (k, v) :: t, a => if k = a then some v else alookup t a

/-- Python `d[k] = v` on a dict as an insertion-ordered association list:
replace the value of an existing key in place, otherwise append at the end. -/
def aset {α β : Type} [DecidableEq α] : List (α × β) → α → β → List (α × β)
  | [], a, b => [(a, b)]
  | (k, v) :: t, a, b => if k = a then (k, b) :: t else (k, v) :: aset t a b

@[simp] theorem alookup_nil {α β : Type} [DecidableEq α] (a : α) :
    alookup ([] : List (α × β)) a = none := rfl

@[simp] theorem alookup_cons {α β : Type} [DecidableEq α] (k a : α) (v : β) (t : List (α × β)) :
    alookup ((k, v) :: t) a = if k = a then some v else alookup t a := rfl

@[simp] theorem aset_nil {α β : Type} [DecidableEq α] (a : α) (b : β) :
    aset ([] : List (α × β)) a b = [(a, b)] := rfl

@[simp] theorem aset_cons {α β : Type} [DecidableEq α] (k a : α) (v b : β) (t : List (α × β)) :
    aset ((k, v) :: t) a b = if k = a then (k, b) :: t else (k, v) :: aset t a b := rfl

/-! ## OceanMap (`ocean_map.py`)

`OceanMap` holds a grid-cell density cache `particle_map`, the post-collection
overrides `processed_particles`, and the loaded particle trajectory dataset.
The zarr dataset is modeled as: for each time index a list of particle
positions `(lat, lon)`, with `none` standing for a NaN entry, plus the lat/lon
ranges extracted at load time. -/

/-- The loaded particle-trajectory dataset (the zarr file contents that
`OceanMap` reads): `times` is `len(time_steps[0])`, `slice t` is the list of
per-trajectory `(lat, lon)` pairs at time index `t` (`none` for NaN). -/
structure OceanZarr where
  times : ℕ
  slice : ℕ → List (Option (ℝ × ℝ))
  min_lon : ℝ
  max_lon : ℝ
  min_lat : ℝ
  max_lat : ℝ

/-- State of `OceanMap`. -/
structure OceanMap where
  width : ℝ
  height : ℝ
  particle_map : List ((ℤ × ℤ) × ℝ)
  grid_size : ℝ
  processed_particles : List ((ℤ × ℤ) × ℝ)
  current_time_index : ℕ
  seconds_per_step : ℝ
  particles_data : OceanZarr

namespace OceanMap

/-- Grid cell of a point (`int(x / grid_size), int(y / grid_size)`). -/
noncomputable def cellKey (m : OceanMap) (x_km y_km : ℝ) : ℤ × ℤ :=
  (pyInt (x_km / m.grid_size), pyInt (y_km / m.grid_size))

/-- Effective density of a grid cell, relative to a given override list and
density cache: the processed override if present, else the cached density,
else `0`. -/
def cellDensityL (proc pmap : List ((ℤ × ℤ) × ℝ)) (key : ℤ × ℤ) : ℝ :=
  match alookup proc key with
  | some v => v
  | none =>
    match alookup pmap key with
    | some v => v
    | none => 0

/-- Effective density stored for a grid cell of the map.  This is the common
core of `get_particles_in_area` and of the current-density reads inside
`process_particles_at_location`. -/
def cellDensity (m : OceanMap) (key : ℤ × ℤ) : ℝ :=
  cellDensityL m.processed_particles m.particle_map key

/-- `OceanMap.get_particles_in_area`: reduce the polygon to its centroid, map
to a grid cell, and return the processed override if present, else the cached
density, else `0`. -/
noncomputable def get_particles_in_area (m : OceanMap) (polygon : List (ℝ × ℝ)) : ℝ :=
  let center_x_km := (polygon.map Prod.fst).sum / polygon.length
  let center_y_km := (polygon.map Prod.snd).sum / polygon.length
  cellDensity m (m.cellKey center_x_km center_y_km)

/-- The fixed neighbor offsets of the depletion loop, in Python iteration
order (`dx` outer from `-1` to `1`, `dy` inner, skipping `(0, 0)`). -/
def neighborOffsets : List (ℤ × ℤ) :=
  [(-1, -1), (-1, 0), (-1, 1), (0, -1), (0, 1), (1, -1), (1, 0), (1, 1)]

/-- One iteration of the neighbor loop of `process_particles_at_location`:
state is the current `processed_particles` list together with the running
total `processable`. -/
noncomputable def depleteNeighbor (m : OceanMap) (key : ℤ × ℤ) (amount : ℝ)
    (st : List ((ℤ × ℤ) × ℝ) × ℝ) (d : ℤ × ℤ) : List ((ℤ × ℤ) × ℝ) × ℝ :=
  let neighbor_key : ℤ × ℤ := (key.1 + d.1, key.2 + d.2)
  let neighbor_density :=
    match alookup m.particle_map neighbor_key with
    | some v => v
    | none => 0
  let neighbor_density :=
    match alookup st.1 neighbor_key with
    | some v => v
    | none => neighbor_density
  let distance := Real.sqrt ((d.1 : ℝ) * d.1 + (d.2 : ℝ) * d.2)
  let falloff := max 0 (1 - distance / 1)
  let neighbor_processable := min (amount * falloff * 0.5) neighbor_density
  let new_neighbor_density := max 0 (neighbor_density - neighbor_processable)
  (aset st.1 neighbor_key new_neighbor_density, st.2 + neighbor_processable)

/-- `OceanMap.process_particles_at_location` (the second definition in the
file, which shadows the earlier one of the same name): remove up to `amount`
from the cell of `(x_km, y_km)`, record the reduced value in
`processed_particles`, run the falloff loop over the eight neighbor cells
(radius `1`), and return the total processed together with the new map. -/
noncomputable def process_particles_at_location (m : OceanMap) (x_km y_km amount : ℝ) :
    ℝ × OceanMap :=
  let key := m.cellKey x_km y_km
  let current_density :=
    match alookup m.particle_map key with
    | some v => v
    | none => 0
  let current_density :=
    match alookup m.processed_particles key with
    | some v => v
    | none => current_density
  let processable := min amount current_density
  let new_density := max 0 (current_density - processable)
  let processed := aset m.processed_particles key new_density
  let st := neighborOffsets.foldl (depleteNeighbor m key amount) (processed, processable)
  (st.2, { m with processed_particles := st.1 })

/-- `OceanMap._update_particles_from_zarr`: clear `particle_map`, count the
valid in-bounds particles of the current time slice per grid cell, rescale
counts to densities in `[0.7, 1.0]`, and advance the time index.
`processed_particles` is not touched. -/
noncomputable def update_particles_from_zarr (m : OceanMap) : OceanMap :=
  let z := m.particles_data
  let time_index := min m.current_time_index (z.times - 1)
  let st := (z.slice time_index).foldl
    (fun (st : List ((ℤ × ℤ) × ℕ) × ℕ) p =>
      match p with
      | none => st
      | some (lat, lon) =>
        let x_km := ((lon - z.min_lon) / (z.max_lon - z.min_lon)) * m.width
        let y_km := ((lat - z.min_lat) / (z.max_lat - z.min_lat)) * m.height
        if x_km < 0 ∨ m.width ≤ x_km ∨ y_km < 0 ∨ m.height ≤ y_km then st
        else
          let key := m.cellKey x_km y_km
          let c := match alookup st.1 key with
            | some c => c
            | none => 0
          (aset st.1 key (c + 1), st.2 + 1))
    ([], 0)
  let particle_map :=
    if 0 < st.2 then
      let max_count : ℕ :=
        match st.1.map Prod.snd with
        | [] => 1
        | c :: cs => cs.foldl Nat.max c
      st.1.map (fun kc => (kc.1, (0.7 : ℝ) + ((kc.2 : ℝ) / (max_count : ℝ)) * 0.3))
    else []
  { m with
    particle_map := particle_map,
    current_time_index := (m.current_time_index + 1) % z.times }

/-- `OceanMap.step` (the second definition in the file, which shadows the
earlier one): update the particle distribution from the zarr data. -/
noncomputable def step (m : OceanMap) : OceanMap :=
  m.update_particles_from_zarr

/-- Well-formedness of a map state: every stored density (cache and overrides)
is nonnegative.  Every map the code builds satisfies this: cached densities
are of the form `0.7 + r * 0.3` with `r ∈ (0, 1]`, and overrides are always
written as `max 0 _`. -/
def WFmap (m : OceanMap) : Prop :=
  (∀ p ∈ m.particle_map, 0 ≤ p.2) ∧ ∀ p ∈ m.processed_particles, 0 ≤ p.2

/-- Iterated depletion at a fixed point (a sequence of
`process_particles_at_location` calls with no intervening `advance`). -/
noncomputable def depleteIter (m : OceanMap) (x_km y_km : ℝ) : List ℝ → OceanMap
  | [] => m
  | a :: as => depleteIter (m.process_particles_at_location x_km y_km a).2 x_km y_km as

/-- A trivial loaded dataset used by the concrete test maps. -/
def zarrTrivial : OceanZarr :=
  { times := 1, slice := fun _ => [], min_lon := 0, max_lon := 1, min_lat := 0, max_lat := 1 }

/-- Concrete map fixture: one cached cell `(5, 5)` with density `0.9`. -/
def mapB : OceanMap :=
  { width := 100, height := 100, particle_map := [((5, 5), 0.9)], grid_size := 1,
    processed_particles := [], current_time_index := 0, seconds_per_step := 300,
    particles_data := zarrTrivial }

/-- Concrete map fixture: cached cells `(5, 5) ↦ 0.9` and `(5, 6) ↦ 0.8`. -/
def mapC : OceanMap :=
  { width := 100, height := 100, particle_map := [((5, 5), 0.9), ((5, 6), 0.8)], grid_size := 1,
    processed_particles := [], current_time_index := 0, seconds_per_step := 300,
    particles_data := zarrTrivial }

/-- Concrete map fixture with one depleted cell override. -/
def mapD : OceanMap :=
  { width := 100, height := 100, particle_map := [], grid_size := 1,
    processed_particles := [((5, 5), 0.2)], current_time_index := 0, seconds_per_step := 300,
    particles_data := zarrTrivial }

/-- Dataset fixture whose only time slice has one particle at lat/lon
`(5.5, 5.5)`, with lat/lon ranges chosen so the km mapping is the identity. -/
def zarrA : OceanZarr :=
  { times := 1, slice := fun _ => [some (5.5, 5.5)], min_lon := 0, max_lon := 100,
    min_lat := 0, max_lat := 100 }

/-- Concrete map fixture backed by `zarrA`, with cell `(5, 5)` cached at `1`. -/
def mapA : OceanMap :=
  { width := 100, height := 100, particle_map := [((5, 5), 1)], grid_size := 1,
    processed_particles := [], current_time_index := 0, seconds_per_step := 300,
    particles_data := zarrA }

end OceanMap

/-! ## CatchingSystem (`catching_system.py`)

The collection vehicle.  Per-step randomness: `_update_movement_target_random`
reseeds the global generator with `random.seed(0)` before drawing, so the
drawn angle is one fixed (unknown) constant; it is passed in as the parameter
`u0`.  The `ocean_map` reference stored on `self` is modeled by threading the
map value; every map operation the vehicle invokes is `get_particles_in_area`,
a pure read, so `step` returns the map it was given. -/

/-- The data a `CatchingSystem` reads from a drone object: its position and
its last scan density (`None` before the first scan). -/
structure DroneReport where
  x_km : ℝ
  y_km : ℝ
  particle_data : Option ℝ

/-- State of `CatchingSystem`. -/
structure CatchingSystem where
  x_km : ℝ
  y_km : ℝ
  current_load : ℝ
  total_collected : ℝ
  move_speed : ℝ
  max_turn_angle : ℝ
  heading : ℝ
  system_span : ℝ
  retention_efficiency : ℝ
  historical_data : List (ℝ × ℝ × ℝ)
  target_position : Option (ℝ × ℝ)
  strategy : String
  update_counter : ℕ
  update_interval : ℕ

namespace CatchingSystem

/-- `CatchingSystem.__init__`: note there is no validation of `strategy` —
construction succeeds for every strategy string. -/
noncomputable def init (dt x_km y_km move_speed max_turn_angle system_span
    retention_efficiency : ℝ) (strategy : String) : CatchingSystem :=
  { x_km := x_km, y_km := y_km, current_load := 0, total_collected := 0,
    move_speed := move_speed * (dt / 3600), max_turn_angle := max_turn_angle * (dt / 3600),
    heading := 0, system_span := system_span, retention_efficiency := retention_efficiency,
    historical_data := [], target_position := none, strategy := strategy,
    update_counter := 0, update_interval := 12 }

/-- `CatchingSystem._collect_historical_data`. -/
def collect_historical_data (s : CatchingSystem) (drones : List DroneReport) : CatchingSystem :=
  { s with historical_data := s.historical_data ++
      drones.filterMap (fun d => d.particle_data.map (fun pd => (d.x_km, d.y_km, pd))) }

/-- `CatchingSystem._get_ground_truth_plastic_density`: query the map with a
degenerate four-point polygon at the vehicle's own position. -/
noncomputable def get_ground_truth_plastic_density (s : CatchingSystem) (m : OceanMap) : ℝ :=
  m.get_particles_in_area
    [(s.x_km, s.y_km), (s.x_km, s.y_km), (s.x_km, s.y_km), (s.x_km, s.y_km)]

/-- `CatchingSystem._update_movement_target_random`.  `u0` is the angle that
`random.uniform(0, 360)` yields right after `random.seed(0)`. -/
noncomputable def update_movement_target_random (s : CatchingSystem) (u0 : ℝ) : CatchingSystem :=
  let counter := s.update_counter + 1
  if counter % s.update_interval ≠ 0 then { s with update_counter := counter }
  else
    let distance := (counter : ℝ) * s.move_speed
    let rad := radians (u0 - 90)
    let target_x := s.x_km + distance * Real.cos rad
    let target_y := s.y_km + distance * Real.sin rad
    { s with
      update_counter := counter,
      target_position := some (max 0 (min 100 target_x), max 0 (min 100 target_y)) }

/-- Python `max(items, key)`: first item whose key is maximal (a later item
replaces the current best only on a strictly greater key). -/
noncomputable def argmaxBy {α : Type} (f : α → ℝ) : α → List α → α
  | best, [] => best
  | best, h :: t => argmaxBy f (if f h > f best then h else best) t

/-- `CatchingSystem._update_movement_target_greedy`. -/
noncomputable def update_movement_target_greedy (s : CatchingSystem) : CatchingSystem :=
  let counter := s.update_counter + 1
  if counter % s.update_interval ≠ 0 then { s with update_counter := counter }
  else if s.historical_data = [] then { s with update_counter := counter }
  else
    let grid : List ((ℤ × ℤ) × ℝ) := s.historical_data.foldl
      (fun g xyd =>
        let key : ℤ × ℤ := (pyInt (xyd.1 / 2), pyInt (xyd.2.1 / 2))
        match alookup g key with
        | some v => aset g key ((v + xyd.2.2) / 2)
        | none => aset g key xyd.2.2) ([] : List ((ℤ × ℤ) × ℝ))
    let current_heading_rad := radians (s.heading - 90)
    let direction_x := Real.cos current_heading_rad
    let direction_y := Real.sin current_heading_rad
    let max_turn_rad := radians s.max_turn_angle
    let scored_cells : List ((ℤ × ℤ) × ℝ × (ℝ × ℝ)) := grid.foldl
      (fun acc kd =>
        let cell_x := ((kd.1.1 : ℝ) + 0.5) * 2
        let cell_y := ((kd.1.2 : ℝ) + 0.5) * 2
        let dx := cell_x - s.x_km
        let dy := cell_y - s.y_km
        let distance := Real.sqrt (dx * dx + dy * dy)
        if distance < 0.1 then acc
        else
          let dx := if distance > 0 then dx / distance else dx
          let dy := if distance > 0 then dy / distance else dy
          let dot_product := dx * direction_x + dy * direction_y
          let angle_to_cell := Real.arccos (max (-1) (min 1 dot_product))
          let direction_score :=
            if 0 < dot_product ∧ angle_to_cell ≤ max_turn_rad then 1
            else if 0 < dot_product then
              max 0.1 (1 - (angle_to_cell - max_turn_rad) / Real.pi)
            else max 0.05 ((dot_product + 1) / 2) * 0.1
          let distance_score := 1 / (1 + |distance - (s.update_interval : ℝ) * s.move_speed| /
            ((s.update_interval : ℝ) * s.move_speed))
          let final_score := kd.2 * (0.7 * direction_score + 0.3 * distance_score)
          acc ++ [(kd.1, final_score, (cell_x, cell_y))]) []
    match scored_cells with
    | [] => { s with update_counter := counter }
    | best0 :: rest =>
      let best := argmaxBy (fun c => c.2.1) best0 rest
      { s with update_counter := counter, target_position := some best.2.2 }

/-- Inner ray loop of the (second, effective) definition of
`CatchingSystem._update_movement_target_optimal`: walk outward along a ray,
breaking at the map boundary, integrating distance-decayed density. -/
noncomputable def optimalPathScore (s : CatchingSystem) (m : OceanMap) (angle_rad : ℝ) :
    List ℕ → ℝ → ℝ
  | [], total => total
  | stp :: rest, total =>
    let distance := (stp : ℝ) * 2
    let dx := distance * Real.cos angle_rad
    let dy := distance * Real.sin angle_rad
    let x := s.x_km + dx
    let y := s.y_km + dy
    if ¬(0 ≤ x ∧ x ≤ 100 ∧ 0 ≤ y ∧ y ≤ 100) then total
    else
      let density := m.get_particles_in_area [(x - 1, y - 1), (x + 1, y - 1), (x + 1, y + 1),
        (x - 1, y + 1)]
      let weight := 1 / (1 + distance / 15) ^ 2
      optimalPathScore s m angle_rad rest (total + density * weight)

/-- `CatchingSystem._update_movement_target_optimal` (the second definition in
the file, which shadows the first): full 360° radial search in 45° increments,
gated to every `update_interval * 24` steps. -/
noncomputable def update_movement_target_optimal (s : CatchingSystem) (m : OceanMap) :
    CatchingSystem :=
  let counter := s.update_counter + 1
  if counter % (s.update_interval * 24) ≠ 0 then { s with update_counter := counter }
  else
    let best := ([0, 45, 90, 135, 180, 225, 270, 315] : List ℕ).foldl
      (fun (best : ℝ × Option (ℝ × ℝ)) angle_deg =>
        let angle_rad := radians (angle_deg : ℝ)
        let total_score := optimalPathScore s m angle_rad
          [1, 2, 3, 4, 5, 6, 7, 8, 9, 10, 11, 12, 13, 14, 15, 16, 17, 18, 19, 20, 21, 22, 23,
            24, 25] 0
        if total_score > best.1 then
          (total_score, some (s.x_km + 50 * Real.cos angle_rad, s.y_km + 50 * Real.sin angle_rad))
        else best) (0, none)
    match best.2 with
    | some t => { s with update_counter := counter, target_position := some t }
    | none => { s with update_counter := counter }

/-- `CatchingSystem._set_default_target`. -/
noncomputable def set_default_target (s : CatchingSystem) : CatchingSystem :=
  let move_angle_rad := radians (s.heading - 90)
  let target_distance := (s.update_interval : ℝ) * s.move_speed
  let target_x := s.x_km + target_distance * Real.cos move_angle_rad
  let target_y := s.y_km + target_distance * Real.sin move_angle_rad
  { s with target_position := some (max 0 (min 100 target_x), max 0 (min 100 target_y)) }

/-- `CatchingSystem._select_new_target`. -/
noncomputable def select_new_target (s : CatchingSystem) (m : OceanMap) (u0 : ℝ) :
    CatchingSystem :=
  let s2 :=
    if s.strategy = "random" then update_movement_target_random s u0
    else if s.strategy = "drone" then update_movement_target_greedy s
    else if s.strategy = "optimal" then update_movement_target_optimal s m
    else set_default_target s
  if s2.target_position = none then set_default_target s2 else s2

/-- `CatchingSystem._move_toward_target`: ensure a target exists, retarget
within the capture radius `0.5`, clamp the signed heading change to
`±max_turn_angle`, and always advance exactly `move_speed` along the new
heading. -/
noncomputable def move_toward_target (s : CatchingSystem) (m : OceanMap) (u0 : ℝ) :
    CatchingSystem :=
  let s1 := if s.target_position = none then set_default_target s else s
  let t := s1.target_position.getD (0, 0)
  let dx := t.1 - s1.x_km
  let dy := t.2 - s1.y_km
  let distance := Real.sqrt (dx ^ 2 + dy ^ 2)
  let s2 := if distance < 0.5 then select_new_target s1 m u0 else s1
  let t2 := if distance < 0.5 then s2.target_position.getD (0, 0) else t
  let dx2 := t2.1 - s2.x_km
  let dy2 := t2.2 - s2.y_km
  let target_heading := pyMod (degrees (atan2 dy2 dx2) - 90) 360
  let heading_diff := pyMod (target_heading - s2.heading + 180) 360 - 180
  let turn_angle := max (-s2.max_turn_angle) (min s2.max_turn_angle heading_diff)
  let new_heading := pyMod (s2.heading + turn_angle) 360
  let move_angle_rad := radians (new_heading - 90)
  { s2 with
    heading := new_heading,
    x_km := s2.x_km + s2.move_speed * Real.cos move_angle_rad,
    y_km := s2.y_km + s2.move_speed * Real.sin move_angle_rad }

/-- First half of `CatchingSystem.step` (lines 61-89): reset the per-step
load, collect drone reports, and collect plastic using the ground-truth
density at the vehicle's own (unchanged) position. -/
noncomputable def stepCollect (s : CatchingSystem) (drones : List DroneReport)
    (m : OceanMap) : CatchingSystem :=
  let s1 := { s with current_load := 0 }
  let s2 := collect_historical_data s1 drones
  let plastic_density := get_ground_truth_plastic_density s2 m
  if plastic_density > 0 then
    let speed_through_water := s2.move_speed
    let plastic_collected :=
      speed_through_water * s2.system_span * s2.retention_efficiency * plastic_density
    { s2 with
      current_load := plastic_collected,
      total_collected := s2.total_collected + plastic_collected }
  else s2

/-- `CatchingSystem.step`: the collection phase (`stepCollect`), then the
strategy dispatch (raising `ValueError` on an unknown strategy name), then the
move.  The ocean map is returned alongside: every map operation the vehicle
performs is `get_particles_in_area`, a pure read. -/
noncomputable def step (s : CatchingSystem) (drones : List DroneReport) (m : OceanMap)
    (u0 : ℝ) : Except String (CatchingSystem × OceanMap) :=
  let s3 := stepCollect s drones m
  if s3.strategy = "random" then
    Except.ok (move_toward_target (update_movement_target_random s3 u0) m u0, m)
  else if s3.strategy = "drone" then
    Except.ok (move_toward_target (update_movement_target_greedy s3) m u0, m)
  else if s3.strategy = "optimal" then
    Except.ok (move_toward_target (update_movement_target_optimal s3 m) m u0, m)
  else Except.error ("Unknown strategy: " ++ s3.strategy)

end CatchingSystem

/-- Concrete map fixture for the vehicle claims: cell `(0, 0)` cached at
density `0.9`, no depletion overrides. -/
def mapE : OceanMap :=
  { width := 100, height := 100, particle_map := [((0, 0), 0.9)], grid_size := 1,
    processed_particles := [], current_time_index := 0, seconds_per_step := 300,
    particles_data := OceanMap.zarrTrivial }

/-- Concrete vehicle fixture: at the origin with unit collection parameters
and the `drone` (greedy) strategy. -/
def sysE : CatchingSystem :=
  { x_km := 0, y_km := 0, current_load := 0, total_collected := 0, move_speed := 1,
    max_turn_angle := 15, heading := 0, system_span := 1, retention_efficiency := 1,
    historical_data := [], target_position := none, strategy := "drone",
    update_counter := 0, update_interval := 12 }

/-- Concrete vehicle fixture for the turn-clamping scenario: at the origin,
heading `0`, per-tick max turn `15`, current target directly behind at
`(0, -10)` (required heading 180 degrees). -/
def sysF : CatchingSystem :=
  { x_km := 0, y_km := 0, current_load := 0, total_collected := 0, move_speed := 1,
    max_turn_angle := 15, heading := 0, system_span := 1, retention_efficiency := 1,
    historical_data := [], target_position := some (0, -10), strategy := "drone",
    update_counter := 0, update_interval := 12 }

/-! ## AIDrone (`ai_drone.py`)

The adaptive drone.  Per-step randomness is threaded as an oracle record
holding the values the `random` module would return on each of the (at most
one per branch) draws a step can make.  Python sets of grid cells and of
cluster ids are modeled as `Finset`; the cluster registry dict as an
insertion-ordered association list.  The `sector_boundaries` attribute is
recomputed by the Python code at every point where `sector_preference`
changes, so it is modeled as a function of `sector_preference`. -/

/-- The random draws an `AIDrone.step` may consume. -/
structure DroneRng where
  explore_draw : ℝ
  exploit_jitter : ℝ
  forced_mag : ℝ
  forced_flip : Bool
  random_angle : ℝ

/-- State of `AIDrone`. -/
structure AIDrone where
  x_km : ℝ
  y_km : ℝ
  scan_radius : ℝ
  min_x : ℝ
  max_x : ℝ
  min_y : ℝ
  max_y : ℝ
  step_size : ℝ
  drone_id : ℤ
  target_x : Option ℝ
  target_y : Option ℝ
  particle_data : Option ℝ
  current_heading : ℝ
  scan_memory : List (ℝ × ℝ × ℝ)
  density_map : List ((ℤ × ℤ) × ℝ)
  visited_cells : Finset (ℤ × ℤ)
  processed_cells : Finset (ℤ × ℤ)
  grid_size : ℝ
  exploration_radius : ℝ
  exploitation_threshold : ℝ
  consecutive_low_density_scans : ℕ
  low_density_threshold : ℝ
  max_low_density_scans : ℕ
  consecutive_steps_same_direction : ℕ
  max_straight_steps : ℕ
  momentum : ℝ
  turn_smoothness : ℝ
  other_drone_positions : List (ℤ × (ℝ × ℝ))
  sector_preference : ℕ
  revisit_penalty : ℝ
  visited_area_penalty : ℝ
  active_clusters : List (ℕ × (ℝ × ℝ × ℝ × ℕ))
  cluster_id_counter : ℕ
  cluster_radius : ℝ
  min_cluster_density : ℝ
  cluster_timeout : ℕ
  assigned_clusters : Finset ℕ
  drone_avoidance_radius : ℝ
  drone_coordination_weight : ℝ
  last_position_broadcast : ℕ
  broadcast_interval : ℕ
  exploration_weight : ℝ
  min_exploration_weight : ℝ
  exploitation_success_counter : ℕ

namespace AIDrone

/-- `AIDrone._calculate_sector_boundaries`: quadrant bounds
`(min_x, max_x, min_y, max_y)` selected by the sector preference (the Python
table maps 0, 1, 2, 3 to the four combinations shown; preferences are always
in `0..3`). -/
noncomputable def sector_boundaries (d : AIDrone) : ℝ × ℝ × ℝ × ℝ :=
  let mid_x := (d.min_x + d.max_x) / 2
  let mid_y := (d.min_y + d.max_y) / 2
  if d.sector_preference = 0 then (d.min_x, mid_x, d.min_y, mid_y)
  else if d.sector_preference = 1 then (d.min_x, mid_x, mid_y, d.max_y)
  else if d.sector_preference = 2 then (mid_x, d.max_x, d.min_y, mid_y)
  else (mid_x, d.max_x, mid_y, d.max_y)

/-- `AIDrone._update_memory`: append the scan, trim to 50, update the density
map, mark the cell visited, and mark it processed below density `0.3`. -/
noncomputable def update_memory (d : AIDrone) (current_density : ℝ) : AIDrone :=
  let mem := d.scan_memory ++ [(d.x_km, d.y_km, current_density)]
  let mem := if 50 < mem.length then mem.drop 1 else mem
  let grid_cell : ℤ × ℤ := (pyInt (d.x_km / d.grid_size), pyInt (d.y_km / d.grid_size))
  { d with
    scan_memory := mem,
    density_map := aset d.density_map grid_cell current_density,
    visited_cells := insert grid_cell d.visited_cells,
    processed_cells :=
      if current_density < 0.3 then insert grid_cell d.processed_cells else d.processed_cells }

/-- The merge-into-first-matching-cluster loop of `AIDrone._identify_clusters`:
returns the updated registry and the merged cluster's id when a tracked
cluster lies within `cluster_radius` grid cells, else `none`. -/
noncomputable def updateFirstCluster (d : AIDrone) (current_density : ℝ) :
    List (ℕ × (ℝ × ℝ × ℝ × ℕ)) → Option (List (ℕ × (ℝ × ℝ × ℝ × ℕ)) × ℕ)
  | [] => none
  | (cid, (center_lat, center_long, last_density, st)) :: t =>
    let current_grid_x := pyInt (d.x_km / d.grid_size)
    let current_grid_y := pyInt (d.y_km / d.grid_size)
    let center_grid_x := pyInt (center_lat / d.grid_size)
    let center_grid_y := pyInt (center_long / d.grid_size)
    let gdx : ℝ := ((current_grid_x - center_grid_x : ℤ) : ℝ)
    let gdy : ℝ := ((current_grid_y - center_grid_y : ℤ) : ℝ)
    if Real.sqrt (gdx * gdx + gdy * gdy) ≤ d.cluster_radius then
      let weight := current_density / (current_density + last_density)
      let new_center_x := center_lat * (1 - weight) + d.x_km * weight
      let new_center_y := center_long * (1 - weight) + d.y_km * weight
      let new_density := max current_density last_density
      some ((cid, (new_center_x, new_center_y, new_density, 0)) :: t, cid)
    else
      match updateFirstCluster d current_density t with
      | some (t2, cid2) => some ((cid, (center_lat, center_long, last_density, st)) :: t2, cid2)
      | none => none

/-- `AIDrone._identify_clusters`. -/
noncomputable def identify_clusters (d : AIDrone) (current_density : ℝ) : AIDrone :=
  if d.min_cluster_density ≤ current_density then
    match updateFirstCluster d current_density d.active_clusters with
    | some (l, cid) =>
      { d with
        active_clusters := l,
        assigned_clusters := insert cid d.assigned_clusters }
    | none =>
      { d with
        active_clusters := aset d.active_clusters d.cluster_id_counter
          (d.x_km, d.y_km, current_density, 0),
        assigned_clusters := insert d.cluster_id_counter d.assigned_clusters,
        cluster_id_counter := d.cluster_id_counter + 1 }
  else d

/-- `AIDrone._update_clusters`: age all registry entries, evicting those past
the timeout (also from the assigned set). -/
def update_clusters (d : AIDrone) : AIDrone :=
  let st := d.active_clusters.foldl
    (fun (acc : List (ℕ × (ℝ × ℝ × ℝ × ℕ)) × Finset ℕ) e =>
      let steps := e.2.2.2.2 + 1
      if d.cluster_timeout < steps then (acc.1, acc.2.erase e.1)
      else (acc.1 ++ [(e.1, (e.2.1, e.2.2.1, e.2.2.2.1, steps))], acc.2))
    ([], d.assigned_clusters)
  { d with active_clusters := st.1, assigned_clusters := st.2 }

/-- `AIDrone._plan_random_move`. -/
noncomputable def plan_random_move (d : AIDrone) (rng : DroneRng) : AIDrone :=
  let angle := rng.random_angle
  let target_x := d.x_km + d.step_size * Real.cos angle
  let target_y := d.y_km + d.step_size * Real.sin angle
  { d with
    target_x := some (max d.min_x (min d.max_x target_x)),
    target_y := some (max d.min_y (min d.max_y target_y)),
    current_heading := angle,
    consecutive_steps_same_direction := 0 }

/-- `AIDrone._plan_forced_exploration`. -/
noncomputable def plan_forced_exploration (d : AIDrone) (rng : DroneRng) : AIDrone :=
  let d := { d with consecutive_low_density_scans := 0 }
  let angle_change := if rng.forced_flip then -rng.forced_mag else rng.forced_mag
  let new_angle := pyMod (d.current_heading + angle_change) (2 * Real.pi)
  let escape_step_size := d.step_size * 1.5
  let target_x := d.x_km + escape_step_size * Real.cos new_angle
  let target_y := d.y_km + escape_step_size * Real.sin new_angle
  { d with
    target_x := some (max d.min_x (min d.max_x target_x)),
    target_y := some (max d.min_y (min d.max_y target_y)),
    current_heading := new_angle,
    consecutive_steps_same_direction := 3 }

/-- The 3-by-3 neighborhood offsets (including the center) scanned by the
revisit-penalty loop of `_plan_exploration`, in Python iteration order. -/
def nb33 : List (ℤ × ℤ) :=
  [(-1, -1), (-1, 0), (-1, 1), (0, -1), (0, 0), (0, 1), (1, -1), (1, 0), (1, 1)]

/-- `AIDrone._plan_exploration`: candidate headings (8-way compass, or a
narrow fan under momentum), scored by momentum alignment, revisit penalties,
sector affinity and peer avoidance; the best candidate sets heading and a
clamped target; with no in-bounds candidate, fall back to a random move. -/
noncomputable def plan_exploration (d0 : AIDrone) (rng : DroneRng) : AIDrone :=
  let d := if d0.max_straight_steps ≤ d0.consecutive_steps_same_direction then
    { d0 with consecutive_steps_same_direction := 0 } else d0
  let momentum_bonus := min ((d.consecutive_steps_same_direction : ℝ) * 0.1) 0.5
  let current_step_size := d.step_size * (1 + momentum_bonus)
  let angles : List ℝ :=
    if 0 < d.consecutive_steps_same_direction then
      [d.current_heading - Real.pi / 4, d.current_heading, d.current_heading + Real.pi / 4]
    else (List.range 8).map (fun i => (i : ℝ) * (Real.pi / 4))
  let direction_scores : List (ℝ × ℝ) := angles.foldl
    (fun acc angle =>
      let new_x := d.x_km + current_step_size * Real.cos angle
      let new_y := d.y_km + current_step_size * Real.sin angle
      if ¬(d.min_x ≤ new_x ∧ new_x ≤ d.max_x ∧ d.min_y ≤ new_y ∧ new_y ≤ d.max_y) then acc
      else
        let new_grid_x := pyInt (new_x / d.grid_size)
        let new_grid_y := pyInt (new_y / d.grid_size)
        let score : ℝ := 1
        let angle_diff := min |angle - d.current_heading|
          (2 * Real.pi - |angle - d.current_heading|)
        let momentum_factor := 1 - angle_diff / Real.pi
        let score := score + momentum_factor * d.momentum
        let score := if (new_grid_x, new_grid_y) ∈ d.visited_cells then
          score * d.revisit_penalty else score
        let score := nb33.foldl
          (fun sc off =>
            if (new_grid_x + off.1, new_grid_y + off.2) ∈ d.visited_cells then
              sc * d.visited_area_penalty
            else sc) score
        let sector := sector_boundaries d
        let sector_center_x := (sector.1 + sector.2.1) / 2
        let sector_center_y := (sector.2.2.1 + sector.2.2.2) / 2
        let sector_angle := atan2 (sector_center_y - d.y_km) (sector_center_x - d.x_km)
        let sector_angle_diff := min |angle - sector_angle|
          (2 * Real.pi - |angle - sector_angle|)
        let sector_alignment := 1 - sector_angle_diff / Real.pi
        let score := score + sector_alignment * 0.5
        let score := d.other_drone_positions.foldl
          (fun sc od =>
            let drone_dx := od.2.1 - new_x
            let drone_dy := od.2.2 - new_y
            let drone_distance := Real.sqrt (drone_dx * drone_dx + drone_dy * drone_dy)
            if drone_distance < d.drone_avoidance_radius * d.grid_size then
              sc * (drone_distance / (d.drone_avoidance_radius * d.grid_size)) *
                d.drone_coordination_weight
            else sc) score
        acc ++ [(angle, score)]) []
  match direction_scores with
  | [] => plan_random_move d rng
  | h :: t =>
    let best_angle := (CatchingSystem.argmaxBy (fun p => p.2) h t).1
    let d2 := if |best_angle - d.current_heading| < 0.1 then
      { d with consecutive_steps_same_direction := d.consecutive_steps_same_direction + 1 }
      else { d with consecutive_steps_same_direction := 0 }
    let target_x := d.x_km + current_step_size * Real.cos best_angle
    let target_y := d.y_km + current_step_size * Real.sin best_angle
    { d2 with
      current_heading := best_angle,
      target_x := some (max d.min_x (min d.max_x target_x)),
      target_y := some (max d.min_y (min d.max_y target_y)) }

/-- Scoring step of the cluster-selection loop of `AIDrone._plan_exploitation`:
score a tracked assigned cluster by `density / (1 + 0.1 * distance)` with a
50% penalty when a peer is closer, keeping the best so far. -/
noncomputable def exploitScoreStep (d : AIDrone) (best : Option ℕ × ℝ) (cid : ℕ) :
    Option ℕ × ℝ :=
  match alookup d.active_clusters cid with
  | none => best
  | some c =>
    let dx := c.1 - d.x_km
    let dy := c.2.1 - d.y_km
    let distance := Real.sqrt (dx * dx + dy * dy)
    let score := c.2.2.1 / (1 + distance * 0.1)
    let score := d.other_drone_positions.foldl
      (fun sc od =>
        let other_dx := c.1 - od.2.1
        let other_dy := c.2.1 - od.2.2
        let other_distance := Real.sqrt (other_dx * other_dx + other_dy * other_dy)
        if other_distance < distance * 0.8 then sc * 0.5 else sc) score
    if score > best.2 then (some cid, score) else best

/-- `AIDrone._plan_exploitation`: pick the best assigned, still-tracked
cluster; move toward it with jitter and a shrinking step, adapting the
exploration weight; with no candidate, fall back to exploration.  Python
iterates the `assigned_clusters` set; the iteration order is modeled as
ascending ids (Python set order for small ints). -/
noncomputable def plan_exploitation (d : AIDrone) (rng : DroneRng) : AIDrone :=
  let best := (d.assigned_clusters.sort (· ≤ ·)).foldl (exploitScoreStep d) (none, -1)
  match best.1 with
  | some best_cluster_id =>
    match alookup d.active_clusters best_cluster_id with
    | none => d
    | some c =>
      let dx := c.1 - d.x_km
      let dy := c.2.1 - d.y_km
      let angle := atan2 dy dx + rng.exploit_jitter
      let distance := Real.sqrt (dx * dx + dy * dy)
      let step_size := min d.step_size (max (distance * 0.5) (d.step_size * 0.5))
      let target_x := d.x_km + step_size * Real.cos angle
      let target_y := d.y_km + step_size * Real.sin angle
      let d2 :=
        { d with
          target_x := some (max d.min_x (min d.max_x target_x)),
          target_y := some (max d.min_y (min d.max_y target_y)),
          current_heading := angle,
          consecutive_steps_same_direction := 0,
          exploitation_success_counter := d.exploitation_success_counter + 1 }
      if 5 < d2.exploitation_success_counter then
        { d2 with
          exploration_weight := max d2.min_exploration_weight (d2.exploration_weight - 0.05),
          exploitation_success_counter := 0 }
      else d2
  | none =>
    let d2 := plan_exploration d rng
    { d2 with exploration_weight := min 0.7 (d2.exploration_weight + 0.05) }

/-- `AIDrone._plan_movement`. -/
noncomputable def plan_movement (d : AIDrone) (rng : DroneRng) : AIDrone :=
  let d1 :=
    match d.scan_memory.getLast? with
    | some last =>
      if last.2.2 < d.low_density_threshold then
        { d with consecutive_low_density_scans := d.consecutive_low_density_scans + 1 }
      else { d with consecutive_low_density_scans := 0 }
    | none => d
  if d1.max_low_density_scans ≤ d1.consecutive_low_density_scans then
    plan_forced_exploration d1 rng
  else if d1.assigned_clusters.Nonempty ∧ rng.explore_draw > d1.exploration_weight then
    plan_exploitation d1 rng
  else plan_exploration d1 rng

/-- `AIDrone._move_to_target`. -/
def move_to_target (d : AIDrone) : AIDrone :=
  match d.target_x, d.target_y with
  | some tx, some ty => { d with x_km := tx, y_km := ty }
  | _, _ => d

/-- The eight-point circular scan polygon of `AIDrone.step`. -/
noncomputable def scanPolygon (d : AIDrone) : List (ℝ × ℝ) :=
  (List.range 8).map (fun i =>
    let angle := 2 * Real.pi * (i : ℝ) / 8
    (d.x_km + d.scan_radius * Real.cos angle, d.y_km + d.scan_radius * Real.sin angle))

/-- `AIDrone.step`: broadcast-counter bookkeeping, scan, memory and cluster
updates, movement planning, and the move itself.  Returns the scanned
density. -/
noncomputable def step (d : AIDrone) (m : OceanMap) (rng : DroneRng) : AIDrone × ℝ :=
  let b := d.last_position_broadcast + 1
  let d0 := { d with last_position_broadcast := if d.broadcast_interval ≤ b then 0 else b }
  let current_density := m.get_particles_in_area (scanPolygon d0)
  let d1 := { d0 with particle_data := some current_density }
  let d2 := update_memory d1 current_density
  let d3 := identify_clusters d2 current_density
  let d4 := update_clusters d3
  let d5 := plan_movement d4 rng
  (move_to_target d5, current_density)

/-- The first-spatially-coincident-cluster search of `_share_cluster_info`
(`break` on the first registry entry within `radius`). -/
noncomputable def findSimilar (radius center_lat center_long : ℝ) :
    List (ℕ × (ℝ × ℝ × ℝ × ℕ)) → Option (ℕ × (ℝ × ℝ × ℝ × ℕ))
  | [] => none
  | (oid, (other_lat, other_long, od, os)) :: t =>
    if Real.sqrt ((center_lat - other_lat) * (center_lat - other_lat) +
        (center_long - other_long) * (center_long - other_long)) < radius then
      some (oid, (other_lat, other_long, od, os))
    else findSimilar radius center_lat center_long t

/-- Conflict resolution of `_share_cluster_info` for one of self's clusters:
if the peer tracks a spatially coincident cluster, assign it to whichever
drone is closer by the 30% margin, breaking near-ties by drone id (lower id
wins); otherwise inject the cluster into the peer's registry when it is
significant. -/
noncomputable def shareResolveOne (self other : AIDrone) (cid : ℕ) (c : ℝ × ℝ × ℝ × ℕ) :
    AIDrone × AIDrone :=
  match findSimilar (self.cluster_radius * self.grid_size) c.1 c.2.1 other.active_clusters with
  | some oc =>
    let my_distance := Real.sqrt ((self.x_km - c.1) ^ 2 + (self.y_km - c.2.1) ^ 2)
    let other_distance := Real.sqrt ((other.x_km - c.1) ^ 2 + (other.y_km - c.2.1) ^ 2)
    if other_distance < my_distance * 0.7 then
      ({ self with assigned_clusters := self.assigned_clusters.erase cid }, other)
    else if my_distance < other_distance * 0.7 then
      (if oc.1 ∈ other.assigned_clusters then
        ({ self with assigned_clusters := insert cid self.assigned_clusters },
          { other with assigned_clusters := other.assigned_clusters.erase oc.1 })
      else (self, other))
    else if self.drone_id < other.drone_id then
      (if oc.1 ∈ other.assigned_clusters then
        ({ self with assigned_clusters := insert cid self.assigned_clusters },
          { other with assigned_clusters := other.assigned_clusters.erase oc.1 })
      else (self, other))
    else ({ self with assigned_clusters := self.assigned_clusters.erase cid }, other)
  | none =>
    if self.min_cluster_density < c.2.2.1 then
      let newActive :=
        aset other.active_clusters self.cluster_id_counter (c.1, c.2.1, c.2.2.1, c.2.2.2)
      ({ self with cluster_id_counter := self.cluster_id_counter + 1 },
        { other with active_clusters := newActive })
    else (self, other)

/-- First phase of `_share_cluster_info`: resolve or share each of self's
clusters, threading the mutated pair. -/
noncomputable def sharePhase1 (self other : AIDrone) : AIDrone × AIDrone :=
  self.active_clusters.foldl (fun st e => shareResolveOne st.1 st.2 e.1 e.2) (self, other)

/-- Second phase of `_share_cluster_info`: learn the peer's clusters that self
does not already track. -/
noncomputable def sharePhase2 (self other : AIDrone) : AIDrone :=
  other.active_clusters.foldl
    (fun slf e =>
      match findSimilar (slf.cluster_radius * slf.grid_size) e.2.1 e.2.2.1
          slf.active_clusters with
      | some _ => slf
      | none =>
        if slf.min_cluster_density < e.2.2.2.1 then
          let newActive :=
            aset slf.active_clusters slf.cluster_id_counter (e.2.1, e.2.2.1, e.2.2.2.1, e.2.2.2.2)
          { slf with
            active_clusters := newActive,
            cluster_id_counter := slf.cluster_id_counter + 1 }
        else slf) self

/-- `AIDrone._share_cluster_info`: pairwise registry exchange and ownership
conflict resolution; mutates both drones. -/
noncomputable def share_cluster_info (self other : AIDrone) : AIDrone × AIDrone :=
  let st := sharePhase1 self other
  (sharePhase2 st.1 st.2, st.2)

end AIDrone

/-! ## LawnmowerDrone (`lawnmower_drone.py`) and CircularDrone
(`circular_drone.py`)

Both inherit `Drone.scan_area` / `Drone._create_scan_polygon`: the field-of-
view rectangle is derived from the external camera configuration
(`configs/cameras.json`, an excluded external interface); its half-extent
values are carried as the fields `half_width` / `half_height`. -/

/-- State of `LawnmowerDrone` (including the `Drone` base fields it uses). -/
structure LawnmowerDrone where
  x_km : ℝ
  y_km : ℝ
  scan_radius : ℝ
  particle_data : Option ℝ
  current_heading : ℝ
  half_width : ℝ
  half_height : ℝ
  min_x : ℝ
  max_x : ℝ
  min_y : ℝ
  max_y : ℝ
  step_size : ℝ
  direction : ℝ
  vertical_direction : ℝ
  completed_rows : ℕ
  horizontal_step : ℝ
  vertical_step : ℝ

namespace LawnmowerDrone

/-- `Drone._create_scan_polygon`: the camera footprint rectangle rotated by
the heading and translated to the drone position; note the source returns the
corners as `(y, x)` pairs. -/
noncomputable def create_scan_polygon (d : LawnmowerDrone) : List (ℝ × ℝ) :=
  let heading_rad := radians d.current_heading
  let corners : List (ℝ × ℝ) := [(-d.half_width, -d.half_height),
    (d.half_width, -d.half_height), (d.half_width, d.half_height),
    (-d.half_width, d.half_height)]
  corners.map (fun c =>
    let rotated_x := c.1 * Real.cos heading_rad - c.2 * Real.sin heading_rad
    let rotated_y := c.1 * Real.sin heading_rad + c.2 * Real.cos heading_rad
    (d.y_km + rotated_y, d.x_km + rotated_x))

/-- `Drone.scan_area`. -/
noncomputable def scan_area (d : LawnmowerDrone) (m : OceanMap) : LawnmowerDrone × ℝ :=
  let density := m.get_particles_in_area (create_scan_polygon d)
  ({ d with particle_data := some density }, density)

/-- `LawnmowerDrone._move_lawnmower_pattern`. -/
noncomputable def move_lawnmower_pattern (d : LawnmowerDrone) : LawnmowerDrone :=
  let x1 := d.x_km + d.direction * d.horizontal_step
  let d1 :=
    if d.max_x ≤ x1 then
      { d with
        x_km := d.max_x,
        y_km := d.y_km + d.vertical_direction * d.vertical_step,
        direction := -1,
        completed_rows := d.completed_rows + 1 }
    else if x1 ≤ d.min_x then
      { d with
        x_km := d.min_x,
        y_km := d.y_km + d.vertical_direction * d.vertical_step,
        direction := 1,
        completed_rows := d.completed_rows + 1 }
    else { d with x_km := x1 }
  if (0 < d1.vertical_direction ∧ d1.max_y ≤ d1.y_km) ∨
      (d1.vertical_direction < 0 ∧ d1.y_km ≤ d1.min_y) then
    let vd := d1.vertical_direction * -1
    if 0 < vd then { d1 with vertical_direction := vd, y_km := d1.min_y }
    else { d1 with vertical_direction := vd, y_km := d1.max_y }
  else d1

/-- `LawnmowerDrone.step`: scan, then move in the boustrophedon pattern. -/
noncomputable def step (d : LawnmowerDrone) (m : OceanMap) : LawnmowerDrone × ℝ :=
  let sc := scan_area d m
  (move_lawnmower_pattern sc.1, sc.2)

end LawnmowerDrone

/-- The catching-system fields a `CircularDrone` reads through its stored
reference: position, `Actor.speed_km_h` and heading. -/
structure SysSnapshot where
  x_km : ℝ
  y_km : ℝ
  speed_km_h : ℝ
  heading : ℝ

/-- State of `CircularDrone` (including the `Drone` base fields it uses). -/
structure CircularDrone where
  x_km : ℝ
  y_km : ℝ
  scan_radius : ℝ
  speed_km_h : ℝ
  particle_data : Option ℝ
  current_heading : ℝ
  half_width : ℝ
  half_height : ℝ
  center_x : ℝ
  center_y : ℝ
  circle_radius : ℝ
  drone_id : ℕ
  total_drones : ℕ
  forward_distance : ℝ
  current_angle : ℝ
  base_angular_speed : ℝ

namespace CircularDrone

/-- `Drone._create_scan_polygon` for the circular drone. -/
noncomputable def create_scan_polygon (d : CircularDrone) : List (ℝ × ℝ) :=
  let heading_rad := radians d.current_heading
  let corners : List (ℝ × ℝ) := [(-d.half_width, -d.half_height),
    (d.half_width, -d.half_height), (d.half_width, d.half_height),
    (-d.half_width, d.half_height)]
  corners.map (fun c =>
    let rotated_x := c.1 * Real.cos heading_rad - c.2 * Real.sin heading_rad
    let rotated_y := c.1 * Real.sin heading_rad + c.2 * Real.cos heading_rad
    (d.y_km + rotated_y, d.x_km + rotated_x))

/-- `Drone.scan_area` for the circular drone. -/
noncomputable def scan_area (d : CircularDrone) (m : OceanMap) : CircularDrone × ℝ :=
  let density := m.get_particles_in_area (create_scan_polygon d)
  ({ d with particle_data := some density }, density)

/-- `CircularDrone._update_position`: place the drone on the circle around
the point `forward_distance` ahead of the system (or around the fixed center
without a system reference).  There is no clamping to the map bounds. -/
noncomputable def update_position (d : CircularDrone) (sys : Option SysSnapshot) :
    CircularDrone :=
  match sys with
  | some s =>
    let system_heading_rad := radians (s.heading - 90)
    let circle_center_x := d.center_x + d.forward_distance * Real.cos system_heading_rad
    let circle_center_y := d.center_y + d.forward_distance * Real.sin system_heading_rad
    { d with
      x_km := circle_center_x + d.circle_radius * Real.sin d.current_angle,
      y_km := circle_center_y + d.circle_radius * Real.cos d.current_angle }
  | none =>
    { d with
      x_km := d.center_x + d.circle_radius * Real.sin d.current_angle,
      y_km := d.center_y + d.circle_radius * Real.cos d.current_angle }

/-- `CircularDrone._move_circular_pattern`. -/
noncomputable def move_circular_pattern (d : CircularDrone) (sys : Option SysSnapshot)
    (seconds_elapsed : ℝ) : CircularDrone :=
  let linear_speed_km_s := d.speed_km_h / 3600
  let effective_radius := max 0.5 d.circle_radius
  let angular_speed_rad_s := linear_speed_km_s / effective_radius
  let angle_change := angular_speed_rad_s * seconds_elapsed
  let a1 := d.current_angle + angle_change
  let a2 := if 2 * Real.pi ≤ a1 then pyMod a1 (2 * Real.pi) else a1
  update_position { d with current_angle := a2 } sys

/-- `CircularDrone.step`: rate-limited center tracking, circular movement,
anti-teleport scaling of the net movement, then the scan. -/
noncomputable def step (d : CircularDrone) (sys : Option SysSnapshot) (m : OceanMap)
    (seconds_elapsed : ℝ) : CircularDrone × ℝ :=
  let prev_x := d.x_km
  let prev_y := d.y_km
  let d1 :=
    match sys with
    | some s =>
      let delta_x := s.x_km - d.center_x
      let delta_y := s.y_km - d.center_y
      let max_center_movement := s.speed_km_h / 3600 * seconds_elapsed * 1.1
      let center_movement_distance := Real.sqrt (delta_x ^ 2 + delta_y ^ 2)
      let scale :=
        if max_center_movement < center_movement_distance then
          max_center_movement / center_movement_distance
        else 1
      { d with
        center_x := d.center_x + delta_x * scale,
        center_y := d.center_y + delta_y * scale,
        x_km := d.x_km + delta_x * scale,
        y_km := d.y_km + delta_y * scale }
    | none => d
  let d2 := move_circular_pattern d1 sys seconds_elapsed
  let current_movement := Real.sqrt ((d2.x_km - prev_x) ^ 2 + (d2.y_km - prev_y) ^ 2)
  let max_drone_movement := d.speed_km_h / 3600 * seconds_elapsed
  let d3 :=
    if max_drone_movement < current_movement then
      let movement_scale := max_drone_movement / current_movement
      { d2 with
        x_km := prev_x + (d2.x_km - prev_x) * movement_scale,
        y_km := prev_y + (d2.y_km - prev_y) * movement_scale }
    else d2
  scan_area d3 m

end CircularDrone

namespace AIDrone

/-- The drone's movement target is set and clamped within its own configured
bounds. -/
def SelfClamped (d : AIDrone) : Prop :=
  ∃ tx ty, d.target_x = some tx ∧ d.target_y = some ty ∧
    d.min_x ≤ tx ∧ tx ≤ d.max_x ∧ d.min_y ≤ ty ∧ ty ≤ d.max_y

end AIDrone

/-- Concrete circular drone fixture: orbiting a circle of radius 5 around its
current position near the top edge of the map, with a speed and step duration
chosen so the anti-teleport limiter is inactive. -/
def circG : CircularDrone :=
  { x_km := 50, y_km := 99, scan_radius := 1, speed_km_h := 60,
    particle_data := none, current_heading := 0, half_width := 1, half_height := 1,
    center_x := 50, center_y := 99, circle_radius := 5, drone_id := 0,
    total_drones := 1, forward_distance := 6, current_angle := -1,
    base_angular_speed := 0.1 }

/-- Concrete adaptive drone fixture with the constructor defaults on a
100 km x 100 km map. -/
def aiG : AIDrone :=
  { x_km := 50, y_km := 50, scan_radius := 1, min_x := 0, max_x := 100,
    min_y := 0, max_y := 100, step_size := 2, drone_id := 0,
    target_x := none, target_y := none, particle_data := none,
    current_heading := 0, scan_memory := [], density_map := [],
    visited_cells := ∅, processed_cells := ∅, grid_size := 5,
    exploration_radius := 20, exploitation_threshold := 0.7,
    consecutive_low_density_scans := 0, low_density_threshold := 0.1,
    max_low_density_scans := 5, consecutive_steps_same_direction := 0,
    max_straight_steps := 10, momentum := 0.8, turn_smoothness := 0.3,
    other_drone_positions := [], sector_preference := 0, revisit_penalty := 0.5,
    visited_area_penalty := 0.3, active_clusters := [], cluster_id_counter := 0,
    cluster_radius := 3, min_cluster_density := 0.5, cluster_timeout := 50,
    assigned_clusters := ∅, drone_avoidance_radius := 15,
    drone_coordination_weight := 0.4, last_position_broadcast := 0,
    broadcast_interval := 5, exploration_weight := 0.8,
    min_exploration_weight := 0.2, exploitation_success_counter := 0 }

/-- Fixed randomness draws for the adaptive drone fixture. -/
def rngG : DroneRng :=
  { explore_draw := 0, exploit_jitter := 0, forced_mag := 0, forced_flip := false,
    random_angle := 0 }

/-- Concrete lawnmower drone fixture starting at the map corner. -/
def lawnG : LawnmowerDrone :=
  { x_km := 0, y_km := 0, scan_radius := 1, particle_data := none,
    current_heading := 0, half_width := 1, half_height := 1, min_x := 0,
    max_x := 100, min_y := 0, max_y := 100, step_size := 1, direction := 1,
    vertical_direction := 1, completed_rows := 0, horizontal_step := 1,
    vertical_step := 1 }

/-- Fixture for the cluster-sharing exchange: a drone at (50, 50) with id 0
tracking one cluster centered at (10, 10). -/
def aiP : AIDrone :=
  { aiG with
    active_clusters := [(0, (10, 10, 1, 0))]
    assigned_clusters := {0} }

/-- Fixture for the cluster-sharing exchange: a drone at (3, 4) with id 1
tracking a coincident cluster under a different local id. -/
def aiQ : AIDrone :=
  { aiG with
    x_km := 3
    y_km := 4
    drone_id := 1
    active_clusters := [(5, (10, 10, 1, 0))]
    assigned_clusters := {5} }

/-- The per-step statistics dictionary returned by `SimulationEngine.step`. -/
structure StepResult where
  step : ℕ
  particles_detected : ℕ
  particles_processed : ℝ

/-- State of `SimulationEngine` (generic in the drone and system types; the
`stats` dictionary is flattened into the three `stats_` fields). -/
structure Engine (D S : Type) where
  ocean_map : OceanMap
  drones : List D
  catching_systems : List S
  current_step : ℕ
  stats_total_steps : ℕ
  stats_total_particles_detected : ℕ
  stats_total_particles_processed : ℝ
  time_step_seconds : ℝ
  elapsed_time_in_seconds : ℝ

/-- `SimulationEngine.__init__` (with the systems already given as a list). -/
def Engine.init {D S : Type} (m : OceanMap) (drones : List D) (systems : List S)
    (time_step_seconds : ℝ) : Engine D S :=
  { ocean_map := m
    drones := drones
    catching_systems := systems
    current_step := 0
    stats_total_steps := 0
    stats_total_particles_detected := 0
    stats_total_particles_processed := 0
    time_step_seconds := time_step_seconds
    elapsed_time_in_seconds := 0 }

/-- The drone-coordination block of `SimulationEngine.step`, gated on
`current_step % 5 == 0`. -/
def Engine.coordPhase {D S : Type} (coordAll : List D → List D) (e : Engine D S) :
    List D :=
  if e.current_step % 5 = 0 then coordAll e.drones else e.drones

/-- The drone-update loop of `SimulationEngine.step`: step every drone against
the (already stepped) map and accumulate the detected densities (a `None`
return contributes nothing). -/
def Engine.stepDrones {D : Type} (droneStep : D → OceanMap → D × Option ℝ)
    (m : OceanMap) : List D → List D × ℝ
  | [] => ([], 0)
  | d :: t =>
    let r := droneStep d m
    let rest := Engine.stepDrones droneStep m t
    (r.1 :: rest.1, (match r.2 with | some x => x | none => 0) + rest.2)

/-- The catching-system loop of `SimulationEngine.step`: step every system,
accumulating the processed totals; an exception from any system aborts the
simulation step. -/
def Engine.stepSystems {D S : Type}
    (sysStep : S → List D → OceanMap → Except String (S × ℝ)) (ds : List D)
    (m : OceanMap) : List S → Except String (List S × ℝ)
  | [] => Except.ok ([], 0)
  | s :: t =>
    match sysStep s ds m with
    | Except.error msg => Except.error msg
    | Except.ok r =>
      match Engine.stepSystems sysStep ds m t with
      | Except.error msg => Except.error msg
      | Except.ok rest => Except.ok (r.1 :: rest.1, r.2 + rest.2)

/-- `SimulationEngine.step`: advance the elapsed time and the map, run the
gated coordination block, step the drones and the systems, write the
statistics (`total_particles_detected` is assigned `current_step`), and return
the per-step dictionary whose `step` and `particles_detected` entries are both
`current_step`.  `current_step` itself is never incremented. -/
noncomputable def Engine.step {D S : Type} (coordAll : List D → List D)
    (droneStep : D → OceanMap → D × Option ℝ)
    (sysStep : S → List D → OceanMap → Except String (S × ℝ))
    (e : Engine D S) : Except String (Engine D S × StepResult) :=
  let elapsed := e.elapsed_time_in_seconds + e.time_step_seconds
  let m := e.ocean_map.step
  let ds0 := Engine.coordPhase coordAll e
  let dr := Engine.stepDrones droneStep m ds0
  match Engine.stepSystems sysStep dr.1 m e.catching_systems with
  | Except.error msg => Except.error msg
  | Except.ok st =>
    Except.ok
      ({ ocean_map := m
         drones := dr.1
         catching_systems := st.1
         current_step := e.current_step
         stats_total_steps := e.stats_total_steps
         stats_total_particles_detected := e.current_step
         stats_total_particles_processed := e.stats_total_particles_processed + st.2
         time_step_seconds := e.time_step_seconds
         elapsed_time_in_seconds := elapsed },
       { step := e.current_step
         particles_detected := e.current_step
         particles_processed := st.2 })

/-- `SimulationEngine.run`: iterate `step`, propagating any exception. -/
noncomputable def Engine.run {D S : Type} (coordAll : List D → List D)
    (droneStep : D → OceanMap → D × Option ℝ)
    (sysStep : S → List D → OceanMap → Except String (S × ℝ)) :
    Engine D S → ℕ → Except String (Engine D S)
  | e, 0 => Except.ok e
  | e, n + 1 =>
    match Engine.step coordAll droneStep sysStep e with
    | Except.error msg => Except.error msg
    | Except.ok r => Engine.run coordAll droneStep sysStep r.1 n

/-- Witness engine: no drones, no systems, the concrete fixture map. -/
def engW : Engine PUnit PUnit := Engine.init mapE [] [] 300

/-- The witness engine after one step. -/
noncomputable def engW' : Engine PUnit PUnit :=
  { ocean_map := OceanMap.step mapE
    drones := []
    catching_systems := []
    current_step := 0
    stats_total_steps := 0
    stats_total_particles_detected := 0
    stats_total_particles_processed := 0 + 0
    time_step_seconds := 300
    elapsed_time_in_seconds := 0 + 300 }

/-- The dictionary returned by the witness engine's step. -/
def resW : StepResult :=
  { step := 0, particles_detected := 0, particles_processed := 0 }

theorem alookup_aset_self {α β : Type} [DecidableEq α] (l : List (α × β)) (a : α) (b : β) :
    alookup (aset l a b) a = some b := by
  induction l with
  | nil => simp
  | cons h t ih =>
    obtain ⟨k, v⟩ := h
    by_cases hk : k = a <;> simp [hk, ih]

theorem alookup_aset_ne {α β : Type} [DecidableEq α] (l : List (α × β)) (a c : α) (b : β)
    (h : a ≠ c) : alookup (aset l a b) c = alookup l c := by
  induction l with
  | nil => simp [h]
  | cons hd t ih =>
    obtain ⟨k, v⟩ := hd
    by_cases hk : k = a
    · subst hk; simp [h, Ne.symm h]
    · by_cases hc : k = c <;> simp [hk, hc, ih, Ne.symm h]

/-- Values of an association list after a `aset` are either the written value
or were present before. -/
theorem mem_aset {α β : Type} [DecidableEq α] (l : List (α × β)) (a : α) (b : β)
    (p : α × β) (hp : p ∈ aset l a b) : p.2 = b ∨ p ∈ l := by
  induction l with
  | nil => simp at hp; simp [hp]
  | cons hd t ih =>
    obtain ⟨k, v⟩ := hd
    by_cases hk : k = a
    · subst hk
      simp at hp
      rcases hp with h | h
      · left; simp [h]
      · right; simp [h]
    · simp [hk] at hp
      rcases hp with h | h
      · right; simp [h]
      · rcases ih h with h2 | h2
        · left; exact h2
        · right; simp [h2]

namespace OceanMap

theorem alookup_mem {α β : Type} [DecidableEq α] (l : List (α × β)) (a : α) (b : β)
    (h : alookup l a = some b) : (a, b) ∈ l := by
  induction l with
  | nil => simp at h
  | cons hd t ih =>
    obtain ⟨k, v⟩ := hd
    by_cases hk : k = a
    · subst hk; simp at h; simp [h]
    · simp [hk] at h; simp [ih h]

theorem cellDensityL_nonneg (proc pmap : List ((ℤ × ℤ) × ℝ)) (key : ℤ × ℤ)
    (hp : ∀ p ∈ proc, 0 ≤ p.2) (hm : ∀ p ∈ pmap, 0 ≤ p.2) :
    0 ≤ cellDensityL proc pmap key := by
  unfold cellDensityL
  rcases h1 : alookup proc key with _ | v
  · rcases h2 : alookup pmap key with _ | v
    · simp
    · simpa using hm _ (alookup_mem pmap key v h2)
  · simpa using hp _ (alookup_mem proc key v h1)

/-- Writing back the current effective value of a cell into the override list
does not change any cell's effective density. -/
theorem cellDensityL_aset_current (proc pmap : List ((ℤ × ℤ) × ℝ)) (nk : ℤ × ℤ) (c : ℤ × ℤ) :
    cellDensityL (aset proc nk (cellDensityL proc pmap nk)) pmap c = cellDensityL proc pmap c := by
  by_cases hc : nk = c
  · subst hc
    unfold cellDensityL
    rw [alookup_aset_self]
  · unfold cellDensityL
    rw [alookup_aset_ne _ _ _ _ hc]

/-- Every neighbor offset of the depletion loop is nonzero and lies at
(Euclidean) distance at least `1`, so the linear falloff
`max 0 (1 - distance / 1)` of the loop is identically `0`. -/
theorem neighbor_falloff_zero (d : ℤ × ℤ) (hd : d ∈ neighborOffsets) :
    max (0 : ℝ) (1 - Real.sqrt ((d.1 : ℝ) * d.1 + (d.2 : ℝ) * d.2) / 1) = 0 := by
  fin_cases hd <;> push_cast <;> norm_num

theorem neighbor_offset_ne_zero (d : ℤ × ℤ) (hd : d ∈ neighborOffsets) :
    ¬(d.1 = 0 ∧ d.2 = 0) := by
  fin_cases hd <;> simp

/-- One iteration of the neighbor loop with a nonnegative override list: the
running total is unchanged (the falloff is zero, so nothing is removed), and
the override list gets the neighbor's current effective value written back. -/
theorem depleteNeighbor_spec (m : OceanMap) (key : ℤ × ℤ) (a : ℝ)
    (l : List ((ℤ × ℤ) × ℝ)) (acc : ℝ) (d : ℤ × ℤ)
    (hm : ∀ p ∈ m.particle_map, 0 ≤ p.2) (hl : ∀ p ∈ l, 0 ≤ p.2)
    (hd : d ∈ neighborOffsets) :
    depleteNeighbor m key a (l, acc) d =
      (aset l (key.1 + d.1, key.2 + d.2)
        (cellDensityL l m.particle_map (key.1 + d.1, key.2 + d.2)), acc) := by
  have hfz := neighbor_falloff_zero d hd
  have hnd : ∀ nk : ℤ × ℤ,
      (match alookup l nk with
       | some v => v
       | none =>
         match alookup m.particle_map nk with
         | some v => v
         | none => 0) = cellDensityL l m.particle_map nk := by
    intro nk
    unfold cellDensityL
    rcases alookup l nk with _ | v <;> rfl
  have hnonneg := cellDensityL_nonneg l m.particle_map (key.1 + d.1, key.2 + d.2) hl hm
  unfold depleteNeighbor
  simp only [hfz]
  have hmin : min (a * 0 * 0.5) (cellDensityL l m.particle_map (key.1 + d.1, key.2 + d.2)) = 0 := by
    rw [mul_zero, zero_mul]
    exact min_eq_left hnonneg
  rcases hL : alookup l (key.1 + d.1, key.2 + d.2) with _ | v
  · rcases hP : alookup m.particle_map (key.1 + d.1, key.2 + d.2) with _ | w
    · have hc : cellDensityL l m.particle_map (key.1 + d.1, key.2 + d.2) = 0 := by
        unfold cellDensityL; rw [hL, hP]
      simp only [hL, hP]
      rw [hc] at hmin ⊢
      simp [hmin]
    · have hc : cellDensityL l m.particle_map (key.1 + d.1, key.2 + d.2) = w := by
        unfold cellDensityL; rw [hL, hP]
      simp only [hL, hP]
      rw [hc] at hmin hnonneg ⊢
      rw [hmin]
      simp [max_eq_right hnonneg]
  · have hc : cellDensityL l m.particle_map (key.1 + d.1, key.2 + d.2) = v := by
      unfold cellDensityL; rw [hL]
    simp only [hL]
    rw [hc] at hmin hnonneg ⊢
    rw [hmin]
    simp [max_eq_right hnonneg]

/-- Invariants of the whole neighbor loop: the returned total equals the
initial one, no cell's effective density changes, nonnegativity of the
override list is preserved, and the lookup of the center key is untouched. -/
theorem depleteFold_spec (m : OceanMap) (key : ℤ × ℤ) (a : ℝ) :
    ∀ offs : List (ℤ × ℤ), (∀ d ∈ offs, d ∈ neighborOffsets) →
    ∀ l acc, (∀ p ∈ m.particle_map, 0 ≤ p.2) → (∀ p ∈ l, 0 ≤ p.2) →
    (offs.foldl (depleteNeighbor m key a) (l, acc)).2 = acc ∧
    (∀ c, cellDensityL (offs.foldl (depleteNeighbor m key a) (l, acc)).1 m.particle_map c =
      cellDensityL l m.particle_map c) ∧
    (∀ p ∈ (offs.foldl (depleteNeighbor m key a) (l, acc)).1, 0 ≤ p.2) ∧
    alookup (offs.foldl (depleteNeighbor m key a) (l, acc)).1 key = alookup l key := by
  intro offs
  induction offs with
  | nil => intro _ l acc _ hl; exact ⟨rfl, fun _ => rfl, hl, rfl⟩
  | cons d t ih =>
    intro hoffs l acc hm hl
    have hd : d ∈ neighborOffsets := hoffs d (by simp)
    have hstep := depleteNeighbor_spec m key a l acc d hm hl hd
    simp only [List.foldl_cons, hstep]
    set nk : ℤ × ℤ := (key.1 + d.1, key.2 + d.2) with hnk
    set v := cellDensityL l m.particle_map nk with hv
    have hl2 : ∀ p ∈ aset l nk v, 0 ≤ p.2 := by
      intro p hp
      rcases mem_aset l nk v p hp with h | h
      · rw [h, hv]; exact cellDensityL_nonneg l m.particle_map nk hl hm
      · exact hl p h
    have hrest := ih (fun e he => hoffs e (by simp [he])) (aset l nk v) acc hm hl2
    refine ⟨hrest.1, ?_, hrest.2.2.1, ?_⟩
    · intro c
      rw [hrest.2.1 c, hv, cellDensityL_aset_current]
    · rw [hrest.2.2.2, hv]
      have hne : nk ≠ key := by
        intro h
        apply neighbor_offset_ne_zero d hd
        have h1 : key.1 + d.1 = key.1 := congrArg Prod.fst h
        have h2 : key.2 + d.2 = key.2 := congrArg Prod.snd h
        omega
      exact alookup_aset_ne l nk key v hne

/-- The `current_density` read of `process_particles_at_location` (cache
first, then override) coincides with the effective cell density. -/
theorem current_density_eq (m : OceanMap) (key : ℤ × ℤ) :
    (match alookup m.processed_particles key with
     | some v => v
     | none =>
       match alookup m.particle_map key with
       | some v => v
       | none => 0) = cellDensity m key := rfl

/-- Full characterization of `process_particles_at_location` on a well-formed
map: the returned amount is `min amount current`, the target cell's override
becomes `max 0 (current - min amount current)`, every other cell keeps its
effective density, well-formedness is preserved, and the density cache is not
touched. -/
theorem deplete_spec (m : OceanMap) (x_km y_km amount : ℝ) (hwf : m.WFmap) :
    (m.process_particles_at_location x_km y_km amount).1 =
      min amount (cellDensity m (m.cellKey x_km y_km)) ∧
    alookup (m.process_particles_at_location x_km y_km amount).2.processed_particles
        (m.cellKey x_km y_km) =
      some (max 0 (cellDensity m (m.cellKey x_km y_km) -
        min amount (cellDensity m (m.cellKey x_km y_km)))) ∧
    (∀ c, c ≠ m.cellKey x_km y_km →
      cellDensity (m.process_particles_at_location x_km y_km amount).2 c = cellDensity m c) ∧
    (m.process_particles_at_location x_km y_km amount).2.WFmap ∧
    (m.process_particles_at_location x_km y_km amount).2.particle_map = m.particle_map ∧
    (m.process_particles_at_location x_km y_km amount).2.grid_size = m.grid_size := by
  obtain ⟨hm, hp⟩ := hwf
  set key := m.cellKey x_km y_km with hkey
  set cur := cellDensity m key with hcur
  set newd := max 0 (cur - min amount cur) with hnewd
  have hwrite : ∀ q ∈ aset m.processed_particles key newd, 0 ≤ q.2 := by
    intro q hq
    rcases mem_aset m.processed_particles key newd q hq with h | h
    · rw [h, hnewd]; exact le_max_left _ _
    · exact hp q h
  have hfold := depleteFold_spec m key amount neighborOffsets (fun d hd => hd)
    (aset m.processed_particles key newd) (min amount cur) hm hwrite
  have hunfold : m.process_particles_at_location x_km y_km amount =
      ((neighborOffsets.foldl (depleteNeighbor m key amount)
          (aset m.processed_particles key newd, min amount cur)).2,
        { m with processed_particles :=
            (neighborOffsets.foldl (depleteNeighbor m key amount)
              (aset m.processed_particles key newd, min amount cur)).1 }) := rfl
  rw [hunfold]
  refine ⟨hfold.1, ?_, ?_, ⟨hm, hfold.2.2.1⟩, rfl, rfl⟩
  · rw [hfold.2.2.2]
    exact alookup_aset_self m.processed_particles key newd
  · intro c hc
    show cellDensityL _ m.particle_map c = cellDensity m c
    rw [hfold.2.1 c]
    unfold cellDensity cellDensityL
    rw [alookup_aset_ne _ _ _ _ (Ne.symm hc)]

theorem cellDensityL_eq_of_some {proc pmap : List ((ℤ × ℤ) × ℝ)} {key : ℤ × ℤ} {v : ℝ}
    (h : alookup proc key = some v) : cellDensityL proc pmap key = v := by
  unfold cellDensityL; rw [h]

theorem cellDensity_nonneg (m : OceanMap) (key : ℤ × ℤ) (hwf : m.WFmap) :
    0 ≤ m.cellDensity key :=
  cellDensityL_nonneg _ _ _ hwf.2 hwf.1

/-- Depletion never increases the effective density of the target cell. -/
theorem deplete_cell_le (m : OceanMap) (x_km y_km amount : ℝ) (hwf : m.WFmap)
    (ha : 0 ≤ amount) :
    cellDensity (m.process_particles_at_location x_km y_km amount).2 (m.cellKey x_km y_km) ≤
      cellDensity m (m.cellKey x_km y_km) := by
  have hs := deplete_spec m x_km y_km amount hwf
  have h0 : 0 ≤ cellDensity m (m.cellKey x_km y_km) := cellDensity_nonneg m _ hwf
  rw [OceanMap.cellDensity, cellDensityL_eq_of_some hs.2.1]
  rcases le_total amount (cellDensity m (m.cellKey x_km y_km)) with h | h
  · rw [min_eq_left h]
    rw [max_eq_right (by linarith)]
    linarith
  · rw [min_eq_right h]
    simpa using h0

theorem deplete_wf (m : OceanMap) (x_km y_km amount : ℝ) (hwf : m.WFmap) :
    (m.process_particles_at_location x_km y_km amount).2.WFmap :=
  (deplete_spec m x_km y_km amount hwf).2.2.2.1

theorem deplete_grid_size (m : OceanMap) (x_km y_km amount : ℝ) :
    (m.process_particles_at_location x_km y_km amount).2.grid_size = m.grid_size := rfl

theorem deplete_particles_data (m : OceanMap) (x_km y_km amount : ℝ) :
    (m.process_particles_at_location x_km y_km amount).2.particles_data = m.particles_data := rfl

theorem deplete_time_index (m : OceanMap) (x_km y_km amount : ℝ) :
    (m.process_particles_at_location x_km y_km amount).2.current_time_index =
      m.current_time_index := rfl

theorem deplete_width (m : OceanMap) (x_km y_km amount : ℝ) :
    (m.process_particles_at_location x_km y_km amount).2.width = m.width := rfl

theorem deplete_height (m : OceanMap) (x_km y_km amount : ℝ) :
    (m.process_particles_at_location x_km y_km amount).2.height = m.height := rfl

theorem step_processed (m : OceanMap) :
    (m.step).processed_particles = m.processed_particles := rfl

theorem pyInt_eval {x : ℝ} {n : ℤ} (h0 : 0 ≤ x) (h1 : (n : ℝ) ≤ x) (h2 : x < n + 1) :
    pyInt x = n := by
  rw [pyInt, if_pos h0]
  exact Int.floor_eq_iff.mpr ⟨h1, by exact_mod_cast h2⟩

theorem depleteIter_grid_size (x_km y_km : ℝ) (l : List ℝ) :
    ∀ m : OceanMap, (depleteIter m x_km y_km l).grid_size = m.grid_size := by
  induction l with
  | nil => intro m; rfl
  | cons a as ih => intro m; rw [depleteIter, ih]; rfl

theorem depleteIter_wf (x_km y_km : ℝ) (l : List ℝ) :
    ∀ m : OceanMap, m.WFmap → (depleteIter m x_km y_km l).WFmap := by
  induction l with
  | nil => intro m h; exact h
  | cons a as ih => intro m h; exact ih _ (deplete_wf m x_km y_km a h)

theorem depleteIter_append_single (x_km y_km amount : ℝ) (l : List ℝ) :
    ∀ m : OceanMap, depleteIter m x_km y_km (l ++ [amount]) =
      ((depleteIter m x_km y_km l).process_particles_at_location x_km y_km amount).2 := by
  induction l with
  | nil => intro m; rfl
  | cons a as ih => intro m; rw [List.cons_append, depleteIter, ih, depleteIter]

theorem cellKey_eq_of_grid (m m2 : OceanMap) (x_km y_km : ℝ)
    (h : m2.grid_size = m.grid_size) : m2.cellKey x_km y_km = m.cellKey x_km y_km := by
  unfold OceanMap.cellKey; rw [h]

theorem mapB_wf : mapB.WFmap := by
  constructor
  · intro p hp
    simp [mapB] at hp
    rw [hp]
    norm_num
  · intro p hp
    simp [mapB] at hp

/-- C3: `process_particles_at_location` (deplete) never removes more than the
effective density that existed at the target cell, a single call never
increases that cell's effective density, and iterated depletion at the same
point without an intervening `advance`/`step` yields a monotonically
decreasing effective density there (each further call decreases it again). -/
theorem C3_theorem (m : OceanMap) (x_km y_km amount : ℝ) (prior : List ℝ)
    (hwf : m.WFmap) (ha : 0 ≤ amount) (hprior : ∀ b ∈ prior, 0 ≤ b) :
    (m.process_particles_at_location x_km y_km amount).1 ≤
      cellDensity m (m.cellKey x_km y_km) ∧
    cellDensity (m.process_particles_at_location x_km y_km amount).2 (m.cellKey x_km y_km) ≤
      cellDensity m (m.cellKey x_km y_km) ∧
    cellDensity (depleteIter m x_km y_km (prior ++ [amount])) (m.cellKey x_km y_km) ≤
      cellDensity (depleteIter m x_km y_km prior) (m.cellKey x_km y_km) := by
  refine ⟨?_, deplete_cell_le m x_km y_km amount hwf ha, ?_⟩
  · rw [(deplete_spec m x_km y_km amount hwf).1]
    exact min_le_right _ _
  · rw [depleteIter_append_single]
    have hwf2 := depleteIter_wf x_km y_km prior m hwf
    have hkey := cellKey_eq_of_grid m (depleteIter m x_km y_km prior) x_km y_km
      (depleteIter_grid_size x_km y_km prior m)
    rw [← hkey]
    exact deplete_cell_le _ x_km y_km amount hwf2 ha

/-- Witness for C3 at a concrete map, point and amounts. -/
theorem C3_witness :
    mapB.WFmap ∧ (0 : ℝ) ≤ 0.5 ∧ (∀ b ∈ [(0.3 : ℝ)], 0 ≤ b) ∧
    ((mapB.process_particles_at_location 5.5 5.5 0.5).1 ≤
        cellDensity mapB (mapB.cellKey 5.5 5.5) ∧
      cellDensity (mapB.process_particles_at_location 5.5 5.5 0.5).2 (mapB.cellKey 5.5 5.5) ≤
        cellDensity mapB (mapB.cellKey 5.5 5.5) ∧
      cellDensity (depleteIter mapB 5.5 5.5 ([0.3] ++ [0.5])) (mapB.cellKey 5.5 5.5) ≤
        cellDensity (depleteIter mapB 5.5 5.5 [0.3]) (mapB.cellKey 5.5 5.5)) :=
  ⟨mapB_wf, by norm_num, by norm_num,
    C3_theorem mapB 5.5 5.5 0.5 [0.3] mapB_wf (by norm_num) (by norm_num)⟩

theorem mapC_wf : mapC.WFmap := by
  constructor
  · intro p hp
    simp [mapC] at hp
    rcases hp with h | h <;> rw [h] <;> norm_num
  · intro p hp
    simp [mapC] at hp

theorem mapC_cellKey : mapC.cellKey 5.5 5.5 = (5, 5) := by
  unfold OceanMap.cellKey pyInt
  rw [if_pos (by norm_num [mapC] : (0:ℝ) ≤ 5.5 / mapC.grid_size)]
  show (⌊(5.5 : ℝ) / mapC.grid_size⌋, ⌊(5.5 : ℝ) / mapC.grid_size⌋) = (5, 5)
  norm_num [mapC]

/-- C4 counterexample: a positive amount (`0.5`) is depleted at `(5.5, 5.5)`
(cell `(5, 5)`) while the neighboring cell `(5, 6)` holds positive density
`0.8`, yet the neighbor's effective density is NOT reduced: it stays `0.8`.
The secondary distance-weighted depletion is identically zero. -/
theorem C4_counterexample :
    (0 : ℝ) < 0.5 ∧
    cellDensity mapC (5, 6) = 0.8 ∧
    cellDensity (mapC.process_particles_at_location 5.5 5.5 0.5).2 (5, 6) = 0.8 := by
  have hbefore : cellDensity mapC (5, 6) = 0.8 := by
    show cellDensityL mapC.processed_particles mapC.particle_map (5, 6) = 0.8
    unfold cellDensityL
    norm_num [mapC, alookup]
  refine ⟨by norm_num, hbefore, ?_⟩
  have h := (deplete_spec mapC 5.5 5.5 0.5 mapC_wf).2.2.1 (5, 6) (by rw [mapC_cellKey]; decide)
  rw [h, hbefore]

/-- C4 amended: the depletion loop does iterate over the eight neighbor cells
with the linear falloff `max 0 (1 - distance / falloffRadius)`, but the
falloff radius is `1` while every neighbor lies at distance at least `1`, so
the falloff weight is identically zero and every cell other than the target
cell keeps its effective density unchanged: the secondary depletion removes
nothing. -/
theorem C4_theorem (m : OceanMap) (x_km y_km amount : ℝ) (hwf : m.WFmap) :
    (∀ d ∈ OceanMap.neighborOffsets,
      max (0 : ℝ) (1 - Real.sqrt ((d.1 : ℝ) * d.1 + (d.2 : ℝ) * d.2) / 1) = 0) ∧
    ∀ c, c ≠ m.cellKey x_km y_km →
      cellDensity (m.process_particles_at_location x_km y_km amount).2 c = cellDensity m c :=
  ⟨OceanMap.neighbor_falloff_zero, (deplete_spec m x_km y_km amount hwf).2.2.1⟩

/-- Witness for C4 at the concrete fixture. -/
theorem C4_witness :
    mapC.WFmap ∧
    ((∀ d ∈ OceanMap.neighborOffsets,
        max (0 : ℝ) (1 - Real.sqrt ((d.1 : ℝ) * d.1 + (d.2 : ℝ) * d.2) / 1) = 0) ∧
      ∀ c, c ≠ mapC.cellKey 5.5 5.5 →
        cellDensity (mapC.process_particles_at_location 5.5 5.5 0.5).2 c = cellDensity mapC c) :=
  ⟨mapC_wf, C4_theorem mapC 5.5 5.5 0.5 mapC_wf⟩

/-- C2 amended: a fresh density recomputation (`advance`/`step`, i.e.
`_update_particles_from_zarr`) rebuilds only the `particle_map` cache and
never touches `processed_particles`, and since `get_particles_in_area` gives
priority to the override, a depleted cell keeps returning the old reduced
value even after the recomputation — the override is never overwritten. -/
theorem C2_theorem (m : OceanMap) :
    (m.step).processed_particles = m.processed_particles ∧
    ∀ key v, alookup m.processed_particles key = some v → cellDensity m.step key = v := by
  refine ⟨rfl, fun key v h => ?_⟩
  show cellDensityL (m.step).processed_particles (m.step).particle_map key = v
  rw [step_processed]
  exact cellDensityL_eq_of_some h

/-- Witness for C2 at a concrete map with an override entry. -/
theorem C2_witness :
    alookup mapD.processed_particles (5, 5) = some 0.2 ∧
    (mapD.step).processed_particles = mapD.processed_particles ∧
    cellDensity mapD.step (5, 5) = 0.2 :=
  ⟨by simp [mapD], (C2_theorem mapD).1,
    (C2_theorem mapD).2 (5, 5) 0.2 (by simp [mapD])⟩

theorem mapA_wf : mapA.WFmap := by
  constructor
  · intro p hp
    simp [mapA] at hp
    rw [hp]
    norm_num
  · intro p hp
    simp [mapA] at hp

theorem mapA_cellKey : mapA.cellKey 5.5 5.5 = (5, 5) := by
  unfold OceanMap.cellKey
  rw [show (5.5 : ℝ) / mapA.grid_size = 5.5 by norm_num [mapA]]
  rw [@pyInt_eval 5.5 5 (by norm_num) (by norm_num) (by norm_num)]

/-- C2 counterexample: deplete cell `(5, 5)` of `mapA` to `0`, run the next
fresh density recomputation (`step`), which recomputes the cell density as
`1`; the query at that cell still returns the old reduced value `0`, not the
freshly recomputed density. -/
theorem C2_counterexample :
    ((mapA.process_particles_at_location 5.5 5.5 1).2.step).get_particles_in_area
        [(5.5, 5.5), (5.5, 5.5), (5.5, 5.5), (5.5, 5.5)] = 0 ∧
    alookup ((mapA.process_particles_at_location 5.5 5.5 1).2.step).particle_map (5, 5) =
      some 1 := by
  have hcur : cellDensity mapA (5, 5) = 1 := by
    show cellDensityL mapA.processed_particles mapA.particle_map (5, 5) = 1
    unfold cellDensityL
    norm_num [mapA]
  have hproc1 : alookup (mapA.process_particles_at_location 5.5 5.5 1).2.processed_particles
      (5, 5) = some 0 := by
    have hs := (deplete_spec mapA 5.5 5.5 1 mapA_wf).2.1
    rw [mapA_cellKey, hcur] at hs
    rw [show (max 0 ((1 : ℝ) - min 1 1)) = 0 from by norm_num] at hs
    exact hs
  have hpm : ((mapA.process_particles_at_location 5.5 5.5 1).2.step).particle_map =
      [((5, 5), 0.7 + ((1 : ℕ) : ℝ) / ((1 : ℕ) : ℝ) * 0.3)] := by
    show ((mapA.process_particles_at_location 5.5 5.5 1).2.update_particles_from_zarr).particle_map
      = _
    unfold update_particles_from_zarr
    rw [deplete_particles_data, deplete_time_index, deplete_width, deplete_height]
    dsimp only
    have hslice : mapA.particles_data.slice
        (min mapA.current_time_index (mapA.particles_data.times - 1)) = [some (5.5, 5.5)] := rfl
    rw [hslice]
    dsimp only [List.foldl_cons, List.foldl_nil]
    have hx : ((5.5 : ℝ) - mapA.particles_data.min_lon) /
        (mapA.particles_data.max_lon - mapA.particles_data.min_lon) * mapA.width = 5.5 := by
      norm_num [mapA, zarrA]
    have hy : ((5.5 : ℝ) - mapA.particles_data.min_lat) /
        (mapA.particles_data.max_lat - mapA.particles_data.min_lat) * mapA.height = 5.5 := by
      norm_num [mapA, zarrA]
    rw [hx, hy]
    rw [if_neg (by norm_num [mapA] : ¬((5.5 : ℝ) < 0 ∨ mapA.width ≤ 5.5 ∨
      (5.5 : ℝ) < 0 ∨ mapA.height ≤ 5.5))]
    have hkey : (mapA.process_particles_at_location 5.5 5.5 1).2.cellKey 5.5 5.5 = (5, 5) := by
      rw [cellKey_eq_of_grid mapA _ 5.5 5.5 (deplete_grid_size mapA 5.5 5.5 1), mapA_cellKey]
    rw [hkey]
    rfl
  refine ⟨?_, by rw [hpm]; norm_num⟩
  unfold get_particles_in_area
  have hcent : ((([(5.5, 5.5), (5.5, 5.5), (5.5, 5.5), (5.5, 5.5)] :
      List (ℝ × ℝ)).map Prod.fst).sum /
      ([(5.5, 5.5), (5.5, 5.5), (5.5, 5.5), (5.5, 5.5)] : List (ℝ × ℝ)).length : ℝ) = 5.5 := by
    norm_num
  have hcent2 : ((([(5.5, 5.5), (5.5, 5.5), (5.5, 5.5), (5.5, 5.5)] :
      List (ℝ × ℝ)).map Prod.snd).sum /
      ([(5.5, 5.5), (5.5, 5.5), (5.5, 5.5), (5.5, 5.5)] : List (ℝ × ℝ)).length : ℝ) = 5.5 := by
    norm_num
  rw [hcent, hcent2]
  have hkey2 : ((mapA.process_particles_at_location 5.5 5.5 1).2.step).cellKey 5.5 5.5 =
      (5, 5) := by
    have hg : ((mapA.process_particles_at_location 5.5 5.5 1).2.step).grid_size =
        mapA.grid_size := rfl
    rw [cellKey_eq_of_grid mapA _ 5.5 5.5 hg, mapA_cellKey]
  show ((mapA.process_particles_at_location 5.5 5.5 1).2.step).cellDensity
    (((mapA.process_particles_at_location 5.5 5.5 1).2.step).cellKey 5.5 5.5) = 0
  rw [hkey2]
  show cellDensityL _ _ (5, 5) = 0
  rw [step_processed]
  exact cellDensityL_eq_of_some hproc1

end OceanMap

namespace CatchingSystem

/-! Frame lemmas: the navigation-target and movement methods never touch the
collection fields (`current_load`, `total_collected`) nor the configuration
fields, and the collection phase never touches the strategy. -/

theorem set_default_keeps (s : CatchingSystem) :
    (set_default_target s).current_load = s.current_load ∧
    (set_default_target s).total_collected = s.total_collected := ⟨rfl, rfl⟩

theorem random_keeps (s : CatchingSystem) (u0 : ℝ) :
    (update_movement_target_random s u0).current_load = s.current_load ∧
    (update_movement_target_random s u0).total_collected = s.total_collected := by
  unfold update_movement_target_random
  dsimp only
  split_ifs <;> exact ⟨rfl, rfl⟩

theorem greedy_keeps (s : CatchingSystem) :
    (update_movement_target_greedy s).current_load = s.current_load ∧
    (update_movement_target_greedy s).total_collected = s.total_collected := by
  unfold update_movement_target_greedy
  dsimp only
  split_ifs <;> first
    | exact ⟨rfl, rfl⟩
    | (split <;> exact ⟨rfl, rfl⟩)

theorem optimal_keeps (s : CatchingSystem) (m : OceanMap) :
    (update_movement_target_optimal s m).current_load = s.current_load ∧
    (update_movement_target_optimal s m).total_collected = s.total_collected := by
  unfold update_movement_target_optimal
  dsimp only
  split_ifs <;> first
    | exact ⟨rfl, rfl⟩
    | (split <;> exact ⟨rfl, rfl⟩)

theorem select_new_keeps (s : CatchingSystem) (m : OceanMap) (u0 : ℝ) :
    (select_new_target s m u0).current_load = s.current_load ∧
    (select_new_target s m u0).total_collected = s.total_collected := by
  unfold select_new_target
  dsimp only
  split_ifs <;>
    constructor <;>
    simp only [(set_default_keeps _).1, (set_default_keeps _).2,
      (random_keeps s u0).1, (random_keeps s u0).2,
      (greedy_keeps s).1, (greedy_keeps s).2, (optimal_keeps s m).1, (optimal_keeps s m).2]

theorem move_toward_keeps (s : CatchingSystem) (m : OceanMap) (u0 : ℝ) :
    (move_toward_target s m u0).current_load = s.current_load ∧
    (move_toward_target s m u0).total_collected = s.total_collected := by
  unfold move_toward_target
  dsimp only
  split_ifs <;>
    constructor <;>
    simp only [(select_new_keeps _ m u0).1, (select_new_keeps _ m u0).2,
      (set_default_keeps _).1, (set_default_keeps _).2]

theorem stepCollect_strategy (s : CatchingSystem) (drones : List DroneReport) (m : OceanMap) :
    (stepCollect s drones m).strategy = s.strategy := by
  unfold stepCollect
  dsimp only
  split_ifs <;> rfl

/-- The collection phase realizes the catch formula: the per-step load equals
`move_speed * system_span * retention_efficiency * density` with the
ground-truth density queried at the vehicle's own position, and the cumulative
total increases by exactly that load. -/
theorem stepCollect_load (s : CatchingSystem) (drones : List DroneReport) (m : OceanMap)
    (hwf : m.WFmap) :
    (stepCollect s drones m).current_load =
      s.move_speed * s.system_span * s.retention_efficiency *
        m.get_particles_in_area
          [(s.x_km, s.y_km), (s.x_km, s.y_km), (s.x_km, s.y_km), (s.x_km, s.y_km)] ∧
    (stepCollect s drones m).total_collected =
      s.total_collected + (stepCollect s drones m).current_load := by
  have hd0 : 0 ≤ m.get_particles_in_area
      [(s.x_km, s.y_km), (s.x_km, s.y_km), (s.x_km, s.y_km), (s.x_km, s.y_km)] :=
    OceanMap.cellDensityL_nonneg _ _ _ hwf.2 hwf.1
  unfold stepCollect
  dsimp only
  split_ifs with h
  · exact ⟨rfl, rfl⟩
  · have hz : m.get_particles_in_area
        [(s.x_km, s.y_km), (s.x_km, s.y_km), (s.x_km, s.y_km), (s.x_km, s.y_km)] = 0 := by
      have h2 : ¬(0 < m.get_particles_in_area
          [(s.x_km, s.y_km), (s.x_km, s.y_km), (s.x_km, s.y_km), (s.x_km, s.y_km)]) := h
      linarith [lt_or_eq_of_le hd0]
    constructor
    · show (0 : ℝ) = _
      rw [hz, mul_zero]
    · show s.total_collected = s.total_collected + (0 : ℝ)
      rw [add_zero]

/-- `step` on an unknown strategy raises `ValueError` (modeled as
`Except.error`), after the collection phase. -/
theorem step_error_of_unknown (s : CatchingSystem) (drones : List DroneReport) (m : OceanMap)
    (u0 : ℝ) (h1 : s.strategy ≠ "random") (h2 : s.strategy ≠ "drone")
    (h3 : s.strategy ≠ "optimal") :
    step s drones m u0 = Except.error ("Unknown strategy: " ++ s.strategy) := by
  unfold step
  have hs := stepCollect_strategy s drones m
  rw [if_neg (by rw [hs]; exact h1), if_neg (by rw [hs]; exact h2),
    if_neg (by rw [hs]; exact h3), hs]

/-- On a known strategy, `step` succeeds and returns the threaded map. -/
theorem step_ok_cases (s : CatchingSystem) (drones : List DroneReport) (m : OceanMap)
    (u0 : ℝ) (r : CatchingSystem × OceanMap) (h : step s drones m u0 = Except.ok r) :
    r.2 = m ∧
    r.1.current_load = (stepCollect s drones m).current_load ∧
    r.1.total_collected = (stepCollect s drones m).total_collected := by
  unfold step at h
  dsimp only at h
  split_ifs at h <;>
  · rw [Except.ok.injEq] at h
    subst h
    refine ⟨rfl, ?_, ?_⟩ <;>
      simp only [(move_toward_keeps _ m u0).1, (move_toward_keeps _ m u0).2,
        (random_keeps _ u0).1, (random_keeps _ u0).2, (greedy_keeps _).1, (greedy_keeps _).2,
        (optimal_keeps _ m).1, (optimal_keeps _ m).2]

/-- Reducing the degenerate four-point polygon at a single point to the cell
density at that point. -/
theorem get_point (m : OceanMap) (x y : ℝ) :
    m.get_particles_in_area [(x, y), (x, y), (x, y), (x, y)] =
      m.cellDensity (m.cellKey x y) := by
  unfold OceanMap.get_particles_in_area
  have h1 : ((([(x, y), (x, y), (x, y), (x, y)] : List (ℝ × ℝ)).map Prod.fst).sum : ℝ) /
      (([(x, y), (x, y), (x, y), (x, y)] : List (ℝ × ℝ)).length : ℝ) = x := by
    simp
    ring
  have h2 : ((([(x, y), (x, y), (x, y), (x, y)] : List (ℝ × ℝ)).map Prod.snd).sum : ℝ) /
      (([(x, y), (x, y), (x, y), (x, y)] : List (ℝ × ℝ)).length : ℝ) = y := by
    simp
    ring
  rw [h1, h2]

/-- C1 amended: a `CatchingSystem.step` never modifies the ocean map — in
particular it never creates or updates a depletion entry (it never calls
`process_particles_at_location`); whenever the step completes, the map (and
its `processed_particles`) is exactly the input map. -/
theorem C1_theorem (s : CatchingSystem) (drones : List DroneReport) (m : OceanMap) (u0 : ℝ) :
    (step s drones m u0).map Prod.snd = (step s drones m u0).map (fun _ => m) ∧
    (step s drones m u0).map (fun r => r.2.processed_particles) =
      (step s drones m u0).map (fun _ => m.processed_particles) := by
  unfold step
  dsimp only
  split_ifs <;> exact ⟨rfl, rfl⟩

end CatchingSystem

theorem mapE_wf : mapE.WFmap := by
  constructor
  · intro p hp
    simp [mapE] at hp
    rw [hp]
    norm_num
  · intro p hp
    simp [mapE] at hp

theorem mapE_get : mapE.get_particles_in_area [((0 : ℝ), (0 : ℝ)), (0, 0), (0, 0), (0, 0)] =
    0.9 := by
  rw [CatchingSystem.get_point]
  have hk : mapE.cellKey 0 0 = (0, 0) := by
    unfold OceanMap.cellKey
    rw [show (0 : ℝ) / mapE.grid_size = 0 by norm_num [mapE]]
    rw [@OceanMap.pyInt_eval 0 0 (by norm_num) (by norm_num) (by norm_num)]
  rw [hk]
  show OceanMap.cellDensityL mapE.processed_particles mapE.particle_map (0, 0) = 0.9
  unfold OceanMap.cellDensityL
  norm_num [mapE]

theorem sysE_step_eq : CatchingSystem.step sysE [] mapE 0 =
    Except.ok (CatchingSystem.move_toward_target
      (CatchingSystem.update_movement_target_greedy (CatchingSystem.stepCollect sysE [] mapE))
      mapE 0, mapE) := by
  unfold CatchingSystem.step
  dsimp only
  have hs := CatchingSystem.stepCollect_strategy sysE [] mapE
  rw [hs]
  rw [if_neg (by decide : ¬(sysE.strategy = "random")),
    if_pos (by decide : sysE.strategy = "drone")]

/-- C1 counterexample: a concrete step in which the vehicle collects the
positive amount `0.9`, yet the map's depletion overrides stay empty — no
depletion entry is created or updated. -/
theorem C1_counterexample :
    (CatchingSystem.step sysE [] mapE 0).map
      (fun r => (r.1.current_load, r.2.processed_particles)) = Except.ok (0.9, []) ∧
    (0 : ℝ) < 0.9 := by
  refine ⟨?_, by norm_num⟩
  rw [sysE_step_eq]
  show Except.ok _ = _
  have hload := (CatchingSystem.move_toward_keeps
    (CatchingSystem.update_movement_target_greedy (CatchingSystem.stepCollect sysE [] mapE))
    mapE 0).1
  rw [Except.ok.injEq]
  refine Prod.ext ?_ rfl
  show (CatchingSystem.move_toward_target _ mapE 0).current_load = 0.9
  rw [hload, (CatchingSystem.greedy_keeps _).1,
    (CatchingSystem.stepCollect_load sysE [] mapE mapE_wf).1]
  show sysE.move_speed * sysE.system_span * sysE.retention_efficiency *
    mapE.get_particles_in_area [((0 : ℝ), (0 : ℝ)), (0, 0), (0, 0), (0, 0)] = 0.9
  rw [mapE_get]
  norm_num [sysE]

/-- C5: on every completed vehicle step, the collected amount equals
`move_speed * system_span * retention_efficiency * density`, where the density
is the ground-truth density queried from the field at the vehicle's own
current position (independent of the drone reports passed in); the amount is
never negative and is added to the cumulative total. -/
theorem C5_theorem (s : CatchingSystem) (drones : List DroneReport) (m : OceanMap) (u0 : ℝ)
    (r : CatchingSystem × OceanMap) (hok : CatchingSystem.step s drones m u0 = Except.ok r)
    (hwf : m.WFmap) (hspeed : 0 ≤ s.move_speed) (hspan : 0 ≤ s.system_span)
    (heff : 0 ≤ s.retention_efficiency) :
    r.1.current_load = s.move_speed * s.system_span * s.retention_efficiency *
      m.get_particles_in_area
        [(s.x_km, s.y_km), (s.x_km, s.y_km), (s.x_km, s.y_km), (s.x_km, s.y_km)] ∧
    0 ≤ r.1.current_load ∧
    r.1.total_collected = s.total_collected + r.1.current_load := by
  have hc := CatchingSystem.step_ok_cases s drones m u0 r hok
  have hl := CatchingSystem.stepCollect_load s drones m hwf
  have hformula := hc.2.1.trans hl.1
  refine ⟨hformula, ?_, ?_⟩
  · rw [hformula]
    have hd : 0 ≤ m.get_particles_in_area
        [(s.x_km, s.y_km), (s.x_km, s.y_km), (s.x_km, s.y_km), (s.x_km, s.y_km)] :=
      OceanMap.cellDensityL_nonneg _ _ _ hwf.2 hwf.1
    exact mul_nonneg (mul_nonneg (mul_nonneg hspeed hspan) heff) hd
  · rw [hc.2.2, hl.2, hc.2.1]

/-- Witness for C5 at the concrete fixture vehicle and map. -/
theorem C5_witness :
    mapE.WFmap ∧ (0 : ℝ) ≤ sysE.move_speed ∧ (0 : ℝ) ≤ sysE.system_span ∧
    (0 : ℝ) ≤ sysE.retention_efficiency ∧
    ((CatchingSystem.move_toward_target
        (CatchingSystem.update_movement_target_greedy
          (CatchingSystem.stepCollect sysE [] mapE)) mapE 0,
      mapE) : CatchingSystem × OceanMap).1.current_load =
      sysE.move_speed * sysE.system_span * sysE.retention_efficiency *
        mapE.get_particles_in_area [(sysE.x_km, sysE.y_km), (sysE.x_km, sysE.y_km),
          (sysE.x_km, sysE.y_km), (sysE.x_km, sysE.y_km)] := by
  have h := C5_theorem sysE [] mapE 0 _ sysE_step_eq mapE_wf (by norm_num [sysE])
    (by norm_num [sysE]) (by norm_num [sysE])
  exact ⟨mapE_wf, by norm_num [sysE], by norm_num [sysE], by norm_num [sysE], h.1⟩

/-- C8 amended: an unknown navigation strategy name is accepted at
construction (the constructor stores any strategy string without validation)
and is rejected only mid-run: the first `step` call raises
`ValueError("Unknown strategy: ...")`. -/
theorem C8_theorem :
    (∀ dt x_km y_km move_speed max_turn_angle system_span retention_efficiency strategy,
      (CatchingSystem.init dt x_km y_km move_speed max_turn_angle system_span
        retention_efficiency strategy).strategy = strategy) ∧
    ∀ s drones m u0, s.strategy ≠ "random" → s.strategy ≠ "drone" →
      s.strategy ≠ "optimal" →
      CatchingSystem.step s drones m u0 =
        Except.error ("Unknown strategy: " ++ s.strategy) :=
  ⟨fun _ _ _ _ _ _ _ _ => rfl, CatchingSystem.step_error_of_unknown⟩

/-- Witness for C8 at a concrete unknown strategy. -/
theorem C8_witness :
    (CatchingSystem.init 300 0 0 2.78 15 1.4 0.5 "teleport").strategy = "teleport" ∧
    CatchingSystem.step (CatchingSystem.init 300 0 0 2.78 15 1.4 0.5 "teleport") [] mapE 0 =
      Except.error ("Unknown strategy: " ++
        (CatchingSystem.init 300 0 0 2.78 15 1.4 0.5 "teleport").strategy) :=
  ⟨C8_theorem.1 300 0 0 2.78 15 1.4 0.5 "teleport",
    C8_theorem.2 _ [] mapE 0 (by decide) (by decide) (by decide)⟩

/-- C8 counterexample: construction with the unknown strategy `teleport`
succeeds (it is stored, not rejected), and the rejection happens only on the
first `step` call, mid-run. -/
theorem C8_counterexample :
    (CatchingSystem.init 300 0 0 2.78 15 1.4 0.5 "teleport").strategy = "teleport" ∧
    CatchingSystem.step (CatchingSystem.init 300 0 0 2.78 15 1.4 0.5 "teleport") [] mapE 0 =
      Except.error "Unknown strategy: teleport" :=
  ⟨rfl, CatchingSystem.step_error_of_unknown _ [] mapE 0 (by decide) (by decide) (by decide)⟩

theorem pyMod_eval (a b : ℝ) (k : ℤ) (hb : 0 < b) (h1 : (k : ℝ) * b ≤ a)
    (h2 : a < ((k : ℝ) + 1) * b) : pyMod a b = a - b * k := by
  unfold pyMod
  have hf : ⌊a / b⌋ = k := by
    rw [Int.floor_eq_iff]
    constructor
    · rw [le_div_iff hb]
      exact h1
    · rw [div_lt_iff hb]
      exact_mod_cast h2
  rw [hf]

theorem sysF_heading : (CatchingSystem.move_toward_target sysF mapE 0).heading = 345 := by
  have hnone : ¬(sysF.target_position = none) := by simp [sysF]
  unfold CatchingSystem.move_toward_target
  dsimp only
  rw [if_neg hnone]
  dsimp only [sysF, Option.getD_some]
  have hs : Real.sqrt (((0 : ℝ) - 0) ^ 2 + ((-10 : ℝ) - 0) ^ 2) = 10 := by
    rw [show ((0 : ℝ) - 0) ^ 2 + ((-10 : ℝ) - 0) ^ 2 = 10 ^ 2 by norm_num]
    exact Real.sqrt_sq (by norm_num)
  rw [hs]
  rw [if_neg (by norm_num : ¬((10 : ℝ) < 0.5)), if_neg (by norm_num : ¬((10 : ℝ) < 0.5))]
  have e1 : (-10 : ℝ) - 0 = -10 := by norm_num
  have e2 : (0 : ℝ) - 0 = 0 := by norm_num
  rw [e1, e2]
  have ha : atan2 (-10 : ℝ) 0 = -(Real.pi / 2) := by
    unfold atan2
    rw [if_neg (lt_irrefl (0 : ℝ)), if_neg (lt_irrefl (0 : ℝ)),
      if_neg (by norm_num : ¬((0 : ℝ) < -10)), if_pos (by norm_num : (-10 : ℝ) < 0)]
  rw [ha]
  have hdeg : degrees (-(Real.pi / 2)) = -90 := by
    unfold degrees
    field_simp
    ring
  rw [hdeg]
  rw [show (-90 : ℝ) - 90 = -180 by norm_num]
  have hm1 : pyMod (-180 : ℝ) 360 = 180 := by
    rw [pyMod_eval (-180) 360 (-1) (by norm_num) (by norm_num) (by norm_num)]
    push_cast
    norm_num
  rw [hm1]
  rw [show (180 : ℝ) - 0 + 180 = 360 by norm_num]
  have hm2 : pyMod (360 : ℝ) 360 = 0 := by
    rw [pyMod_eval 360 360 1 (by norm_num) (by norm_num) (by norm_num)]
    push_cast
    norm_num
  rw [hm2]
  rw [show (0 : ℝ) - 180 = -180 by norm_num]
  rw [show max (-(15 : ℝ)) (min 15 (-180)) = -15 by norm_num]
  rw [show (0 : ℝ) + -15 = -15 by norm_num]
  rw [pyMod_eval (-15) 360 (-1) (by norm_num) (by norm_num) (by norm_num)]
  push_cast
  norm_num

/-- C6 counterexample: in the scenario of the claim (vehicle at the origin,
heading 0, max turn 15 per tick, target directly behind), the heading after
one movement update is `345` degrees — the clamp resolves to a `-15` degree
turn, not the claimed `+15`. -/
theorem C6_counterexample :
    (CatchingSystem.move_toward_target sysF mapE 0).heading = 345 ∧
    (CatchingSystem.move_toward_target sysF mapE 0).heading ≠ 15 := by
  refine ⟨sysF_heading, ?_⟩
  rw [sysF_heading]
  norm_num

/-- C6 amended: in the claimed scenario the signed heading change is clamped
to the max turn rate, but the required `-180` degree difference is clamped to
`-15` degrees, so the new heading is `345` degrees (equivalently `-15`), not
`180`: the vehicle turns gradually instead of snapping around. -/
theorem C6_theorem :
    (CatchingSystem.move_toward_target sysF mapE 0).heading = 345 ∧
    (CatchingSystem.move_toward_target sysF mapE 0).heading ≠ 180 := by
  refine ⟨sysF_heading, ?_⟩
  rw [sysF_heading]
  norm_num

namespace AIDrone

theorem clamp_mem (lo hi v : ℝ) (h : lo ≤ hi) :
    lo ≤ max lo (min hi v) ∧ max lo (min hi v) ≤ hi :=
  ⟨le_max_left _ _, max_le h (min_le_left _ _)⟩

theorem plan_random_spec (d : AIDrone) (rng : DroneRng) :
    (plan_random_move d rng).min_x = d.min_x ∧ (plan_random_move d rng).max_x = d.max_x ∧
    (plan_random_move d rng).min_y = d.min_y ∧ (plan_random_move d rng).max_y = d.max_y ∧
    (d.min_x ≤ d.max_x → d.min_y ≤ d.max_y → SelfClamped (plan_random_move d rng)) := by
  refine ⟨rfl, rfl, rfl, rfl, fun hx hy => ?_⟩
  exact ⟨_, _, rfl, rfl, (clamp_mem _ _ _ hx).1, (clamp_mem _ _ _ hx).2,
    (clamp_mem _ _ _ hy).1, (clamp_mem _ _ _ hy).2⟩

theorem plan_forced_spec (d : AIDrone) (rng : DroneRng) :
    (plan_forced_exploration d rng).min_x = d.min_x ∧
    (plan_forced_exploration d rng).max_x = d.max_x ∧
    (plan_forced_exploration d rng).min_y = d.min_y ∧
    (plan_forced_exploration d rng).max_y = d.max_y ∧
    (d.min_x ≤ d.max_x → d.min_y ≤ d.max_y →
      SelfClamped (plan_forced_exploration d rng)) := by
  refine ⟨rfl, rfl, rfl, rfl, fun hx hy => ?_⟩
  exact ⟨_, _, rfl, rfl, (clamp_mem _ _ _ hx).1, (clamp_mem _ _ _ hx).2,
    (clamp_mem _ _ _ hy).1, (clamp_mem _ _ _ hy).2⟩

theorem plan_exploration_spec (d0 : AIDrone) (rng : DroneRng) :
    (plan_exploration d0 rng).min_x = d0.min_x ∧
    (plan_exploration d0 rng).max_x = d0.max_x ∧
    (plan_exploration d0 rng).min_y = d0.min_y ∧
    (plan_exploration d0 rng).max_y = d0.max_y ∧
    (d0.min_x ≤ d0.max_x → d0.min_y ≤ d0.max_y → SelfClamped (plan_exploration d0 rng)) := by
  unfold plan_exploration
  dsimp only
  split
  · split_ifs <;> exact plan_random_spec _ rng
  · split_ifs <;>
      exact ⟨rfl, rfl, rfl, rfl, fun hx hy => ⟨_, _, rfl, rfl, (clamp_mem _ _ _ hx).1,
        (clamp_mem _ _ _ hx).2, (clamp_mem _ _ _ hy).1, (clamp_mem _ _ _ hy).2⟩⟩

theorem exploitBest_found (d : AIDrone) :
    ∀ (l : List ℕ) (acc : Option ℕ × ℝ),
      (∀ c, acc.1 = some c → (alookup d.active_clusters c).isSome = true) →
      ∀ c, (l.foldl (exploitScoreStep d) acc).1 = some c →
        (alookup d.active_clusters c).isSome = true := by
  intro l
  induction l with
  | nil => exact fun acc hacc c h => hacc c h
  | cons cid t ih =>
    intro acc hacc c h
    rw [List.foldl_cons] at h
    refine ih _ ?_ c h
    intro c2 h2
    unfold exploitScoreStep at h2
    rcases hl : alookup d.active_clusters cid with _ | cval
    · rw [hl] at h2
      exact hacc c2 h2
    · rw [hl] at h2
      dsimp only at h2
      split_ifs at h2
      · simp at h2
        rw [← h2, hl]
        rfl
      · exact hacc c2 h2

theorem plan_exploitation_spec (d : AIDrone) (rng : DroneRng) :
    (plan_exploitation d rng).min_x = d.min_x ∧
    (plan_exploitation d rng).max_x = d.max_x ∧
    (plan_exploitation d rng).min_y = d.min_y ∧
    (plan_exploitation d rng).max_y = d.max_y ∧
    (d.min_x ≤ d.max_x → d.min_y ≤ d.max_y → SelfClamped (plan_exploitation d rng)) := by
  unfold plan_exploitation
  dsimp only
  split
  · next best_cluster_id heq =>
    split
    · next hnone =>
      exfalso
      have hfound := exploitBest_found d (d.assigned_clusters.sort (· ≤ ·)) (none, -1)
        (by intro c h; simp at h) best_cluster_id heq
      rw [hnone] at hfound
      simp at hfound
    · next c hsome =>
      split_ifs <;>
        exact ⟨rfl, rfl, rfl, rfl, fun hx hy => ⟨_, _, rfl, rfl, (clamp_mem _ _ _ hx).1,
          (clamp_mem _ _ _ hx).2, (clamp_mem _ _ _ hy).1, (clamp_mem _ _ _ hy).2⟩⟩
  · have hs := plan_exploration_spec d rng
    refine ⟨hs.1, hs.2.1, hs.2.2.1, hs.2.2.2.1, fun hx hy => ?_⟩
    obtain ⟨tx, ty, htx, hty, h1, h2, h3, h4⟩ := hs.2.2.2.2 hx hy
    exact ⟨tx, ty, htx, hty, h1, h2, h3, h4⟩

theorem plan_movement_spec (d : AIDrone) (rng : DroneRng) :
    (plan_movement d rng).min_x = d.min_x ∧
    (plan_movement d rng).max_x = d.max_x ∧
    (plan_movement d rng).min_y = d.min_y ∧
    (plan_movement d rng).max_y = d.max_y ∧
    (d.min_x ≤ d.max_x → d.min_y ≤ d.max_y → SelfClamped (plan_movement d rng)) := by
  unfold plan_movement
  dsimp only
  rcases hm : d.scan_memory.getLast? with _ | last <;>
    simp only [hm] <;>
    split_ifs <;>
    first
      | exact plan_forced_spec _ rng
      | exact plan_exploitation_spec _ rng
      | exact plan_exploration_spec _ rng

theorem identify_bounds (d : AIDrone) (c : ℝ) :
    (identify_clusters d c).min_x = d.min_x ∧ (identify_clusters d c).max_x = d.max_x ∧
    (identify_clusters d c).min_y = d.min_y ∧ (identify_clusters d c).max_y = d.max_y := by
  unfold identify_clusters
  split_ifs
  · split <;> exact ⟨rfl, rfl, rfl, rfl⟩
  · exact ⟨rfl, rfl, rfl, rfl⟩

/-- After any `AIDrone.step`, the drone's position lies within its configured
bounds: every movement-planning path sets a target clamped into
`[min_x, max_x] × [min_y, max_y]`, and the move copies the target into the
position. -/
theorem ai_step_in_bounds (d : AIDrone) (m : OceanMap) (rng : DroneRng)
    (hx : d.min_x ≤ d.max_x) (hy : d.min_y ≤ d.max_y) :
    d.min_x ≤ (step d m rng).1.x_km ∧ (step d m rng).1.x_km ≤ d.max_x ∧
    d.min_y ≤ (step d m rng).1.y_km ∧ (step d m rng).1.y_km ≤ d.max_y := by
  unfold step
  dsimp only
  set b := d.last_position_broadcast + 1 with hb
  set d0 := { d with last_position_broadcast := if d.broadcast_interval ≤ b then 0 else b }
    with hd0
  set dens := m.get_particles_in_area (scanPolygon d0) with hdens
  set d2 := update_memory { d0 with particle_data := some dens } dens with hd2
  set d3 := identify_clusters d2 dens with hd3
  set d4 := update_clusters d3 with hd4
  have hb4x : d4.min_x = d.min_x := by
    rw [hd4]
    show d3.min_x = d.min_x
    rw [hd3, (identify_bounds d2 dens).1]
    rfl
  have hb4X : d4.max_x = d.max_x := by
    rw [hd4]
    show d3.max_x = d.max_x
    rw [hd3, (identify_bounds d2 dens).2.1]
    rfl
  have hb4y : d4.min_y = d.min_y := by
    rw [hd4]
    show d3.min_y = d.min_y
    rw [hd3, (identify_bounds d2 dens).2.2.1]
    rfl
  have hb4Y : d4.max_y = d.max_y := by
    rw [hd4]
    show d3.max_y = d.max_y
    rw [hd3, (identify_bounds d2 dens).2.2.2]
    rfl
  have hp := plan_movement_spec d4 rng
  obtain ⟨tx, ty, htx, hty, h1, h2, h3, h4⟩ :=
    hp.2.2.2.2 (by rw [hb4x, hb4X]; exact hx) (by rw [hb4y, hb4Y]; exact hy)
  unfold move_to_target
  rw [htx, hty]
  dsimp only
  rw [hp.1, hb4x] at h1
  rw [hp.2.1, hb4X] at h2
  rw [hp.2.2.1, hb4y] at h3
  rw [hp.2.2.2.1, hb4Y] at h4
  exact ⟨h1, h2, h3, h4⟩

end AIDrone

namespace LawnmowerDrone

/-- After any `LawnmowerDrone.step` from an in-bounds row position (with a
nonnegative vertical step), the drone's position stays within its configured
bounds: the horizontal move clamps at the left/right boundary, and the
boundary-crossing logic clamps the row position at the top/bottom. -/
theorem move_in_bounds (d : LawnmowerDrone)
    (hx : d.min_x ≤ d.max_x) (hy : d.min_y ≤ d.max_y) (hv : 0 ≤ d.vertical_step)
    (hy1 : d.min_y ≤ d.y_km) (hy2 : d.y_km ≤ d.max_y) :
    d.min_x ≤ (move_lawnmower_pattern d).x_km ∧ (move_lawnmower_pattern d).x_km ≤ d.max_x ∧
    d.min_y ≤ (move_lawnmower_pattern d).y_km ∧ (move_lawnmower_pattern d).y_km ≤ d.max_y := by
  have hizero : d.vertical_direction = 0 →
      d.y_km + d.vertical_direction * d.vertical_step = d.y_km := by
    intro h
    rw [h, zero_mul, add_zero]
  have hipos : 0 < d.vertical_direction →
      d.y_km ≤ d.y_km + d.vertical_direction * d.vertical_step := by
    intro h
    nlinarith
  have hineg : d.vertical_direction < 0 →
      d.y_km + d.vertical_direction * d.vertical_step ≤ d.y_km := by
    intro h
    nlinarith
  unfold move_lawnmower_pattern
  dsimp only
  split_ifs with h1 h2 h3 h4 h5 h6 h7 h8
  · exact ⟨hx, le_refl _, le_refl _, hy⟩
  · exact ⟨hx, le_refl _, hy, le_refl _⟩
  · push_neg at h2
    dsimp only at h2 ⊢
    refine ⟨hx, le_refl _, ?_, ?_⟩
    · rcases lt_trichotomy d.vertical_direction 0 with hvd | hvd | hvd
      · linarith [h2.2 hvd]
      · linarith [hizero hvd]
      · linarith [hipos hvd]
    · rcases lt_trichotomy d.vertical_direction 0 with hvd | hvd | hvd
      · linarith [hineg hvd]
      · linarith [hizero hvd]
      · linarith [h2.1 hvd]
  · exact ⟨le_refl _, hx, le_refl _, hy⟩
  · exact ⟨le_refl _, hx, hy, le_refl _⟩
  · push_neg at h5
    dsimp only at h5 ⊢
    refine ⟨le_refl _, hx, ?_, ?_⟩
    · rcases lt_trichotomy d.vertical_direction 0 with hvd | hvd | hvd
      · linarith [h5.2 hvd]
      · linarith [hizero hvd]
      · linarith [hipos hvd]
    · rcases lt_trichotomy d.vertical_direction 0 with hvd | hvd | hvd
      · linarith [hineg hvd]
      · linarith [hizero hvd]
      · linarith [h5.1 hvd]
  · push_neg at h1 h4
    exact ⟨le_of_lt h4, le_of_lt h1, le_refl _, hy⟩
  · push_neg at h1 h4
    exact ⟨le_of_lt h4, le_of_lt h1, hy, le_refl _⟩
  · push_neg at h1 h4
    exact ⟨le_of_lt h4, le_of_lt h1, hy1, hy2⟩

/-- After any `LawnmowerDrone.step` from an in-bounds row position (with a
nonnegative vertical step), the drone's position stays within its configured
bounds: the horizontal move clamps at the left/right boundary, and the
boundary-crossing logic clamps the row position at the top/bottom. -/
theorem lawn_step_in_bounds (d : LawnmowerDrone) (m : OceanMap)
    (hx : d.min_x ≤ d.max_x) (hy : d.min_y ≤ d.max_y) (hv : 0 ≤ d.vertical_step)
    (hy1 : d.min_y ≤ d.y_km) (hy2 : d.y_km ≤ d.max_y) :
    d.min_x ≤ (step d m).1.x_km ∧ (step d m).1.x_km ≤ d.max_x ∧
    d.min_y ≤ (step d m).1.y_km ∧ (step d m).1.y_km ≤ d.max_y := by
  unfold step scan_area
  dsimp only
  exact move_in_bounds
    { d with particle_data := some (m.get_particles_in_area (create_scan_polygon d)) }
    hx hy hv hy1 hy2

end LawnmowerDrone

/-- C7, corrected part: the adaptive drone and the lawnmower drone do stay in
their configured bounds after every `step` (the adaptive drone clamps every
planned target, the lawnmower move clamps at all four boundaries), given
consistent bounds (and, for the lawnmower, a nonnegative vertical step and an
in-bounds row position). -/
theorem C7_theorem :
    (∀ (d : AIDrone) (m : OceanMap) (rng : DroneRng),
      d.min_x ≤ d.max_x → d.min_y ≤ d.max_y →
      d.min_x ≤ (AIDrone.step d m rng).1.x_km ∧
      (AIDrone.step d m rng).1.x_km ≤ d.max_x ∧
      d.min_y ≤ (AIDrone.step d m rng).1.y_km ∧
      (AIDrone.step d m rng).1.y_km ≤ d.max_y) ∧
    (∀ (d : LawnmowerDrone) (m : OceanMap),
      d.min_x ≤ d.max_x → d.min_y ≤ d.max_y → 0 ≤ d.vertical_step →
      d.min_y ≤ d.y_km → d.y_km ≤ d.max_y →
      d.min_x ≤ (LawnmowerDrone.step d m).1.x_km ∧
      (LawnmowerDrone.step d m).1.x_km ≤ d.max_x ∧
      d.min_y ≤ (LawnmowerDrone.step d m).1.y_km ∧
      (LawnmowerDrone.step d m).1.y_km ≤ d.max_y) :=
  ⟨fun d m rng hx hy => AIDrone.ai_step_in_bounds d m rng hx hy,
   fun d m hx hy hv hy1 hy2 => LawnmowerDrone.lawn_step_in_bounds d m hx hy hv hy1 hy2⟩

/-- C7 witness: the in-bounds conclusion instantiated at the concrete adaptive
and lawnmower drone fixtures. -/
theorem C7_witness :
    (aiG.min_x ≤ (AIDrone.step aiG mapE rngG).1.x_km ∧
     (AIDrone.step aiG mapE rngG).1.x_km ≤ aiG.max_x ∧
     aiG.min_y ≤ (AIDrone.step aiG mapE rngG).1.y_km ∧
     (AIDrone.step aiG mapE rngG).1.y_km ≤ aiG.max_y) ∧
    (lawnG.min_x ≤ (LawnmowerDrone.step lawnG mapE).1.x_km ∧
     (LawnmowerDrone.step lawnG mapE).1.x_km ≤ lawnG.max_x ∧
     lawnG.min_y ≤ (LawnmowerDrone.step lawnG mapE).1.y_km ∧
     (LawnmowerDrone.step lawnG mapE).1.y_km ≤ lawnG.max_y) :=
  ⟨C7_theorem.1 aiG mapE rngG (by norm_num [aiG]) (by norm_num [aiG]),
   C7_theorem.2 lawnG mapE (by norm_num [lawnG]) (by norm_num [lawnG])
     (by norm_num [lawnG]) (by norm_num [lawnG]) (by norm_num [lawnG])⟩

/-- C7 counterexample: the circular drone has no bounds clamping at all.  The
fixture starts inside the 100 km x 100 km map but its orbit circle pokes past
the top edge, and after one `step` (with no system reference) it sits at
`y_km = 104`, outside the map. -/
theorem C7_counterexample :
    (0 ≤ circG.x_km ∧ circG.x_km ≤ mapE.width ∧
     0 ≤ circG.y_km ∧ circG.y_km ≤ mapE.height) ∧
    ¬ ((CircularDrone.step circG none mapE 300).1.y_km ≤ mapE.height) := by
  constructor
  · refine ⟨?_, ?_, ?_, ?_⟩ <;> norm_num [circG, mapE]
  · have hstep : (CircularDrone.step circG none mapE 300).1.y_km = 104 := by
      unfold CircularDrone.step
      dsimp only
      unfold CircularDrone.move_circular_pattern CircularDrone.update_position
      dsimp only [circG]
      rw [show max (0.5 : ℝ) 5 = 5 from by norm_num]
      rw [show (-1 : ℝ) + 60 / 3600 / 5 * 300 = 0 from by norm_num]
      rw [if_neg (not_le.mpr (by positivity) : ¬ (2 * Real.pi ≤ (0 : ℝ)))]
      rw [Real.sin_zero, Real.cos_zero]
      have hs : √(((50 : ℝ) + 5 * 0 - 50) ^ 2 + (99 + 5 * 1 - 99) ^ 2) = 5 := by
        rw [show ((50 : ℝ) + 5 * 0 - 50) ^ 2 + (99 + 5 * 1 - 99) ^ 2 = 5 ^ 2 from by norm_num]
        exact Real.sqrt_sq (by norm_num)
      rw [hs]
      rw [if_neg (by norm_num : ¬ ((60 : ℝ) / 3600 * 300 < 5))]
      unfold CircularDrone.scan_area
      dsimp only
      norm_num
    rw [hstep]
    norm_num [mapE]

/-- Updating `assigned_clusters` with its current value is the identity. -/
theorem AIDrone.assigned_update_eq (d : AIDrone) (s : Finset ℕ)
    (h : s = d.assigned_clusters) :
    ({ d with assigned_clusters := s } : AIDrone) = d := by
  rw [h]

/-- Closed form of one pairwise exchange when each drone tracks exactly one
cluster and the two clusters share a center: the registries and counters are
untouched and only the assignment sets move, by the 30% distance margin with
the id tiebreak. -/
theorem AIDrone.share_singleton_eval (A B : AIDrone) (ca cb : ℕ)
    (lat long da db : ℝ) (sa sb : ℕ)
    (hA : A.active_clusters = [(ca, (lat, long, da, sa))])
    (hB : B.active_clusters = [(cb, (lat, long, db, sb))])
    (hrA : 0 < A.cluster_radius * A.grid_size) :
    AIDrone.share_cluster_info A B =
      (if Real.sqrt ((B.x_km - lat) ^ 2 + (B.y_km - long) ^ 2) <
          Real.sqrt ((A.x_km - lat) ^ 2 + (A.y_km - long) ^ 2) * 0.7 then
        ({ A with assigned_clusters := A.assigned_clusters.erase ca }, B)
      else if Real.sqrt ((A.x_km - lat) ^ 2 + (A.y_km - long) ^ 2) <
          Real.sqrt ((B.x_km - lat) ^ 2 + (B.y_km - long) ^ 2) * 0.7 then
        (if cb ∈ B.assigned_clusters then
          ({ A with assigned_clusters := insert ca A.assigned_clusters },
            { B with assigned_clusters := B.assigned_clusters.erase cb })
        else (A, B))
      else if A.drone_id < B.drone_id then
        (if cb ∈ B.assigned_clusters then
          ({ A with assigned_clusters := insert ca A.assigned_clusters },
            { B with assigned_clusters := B.assigned_clusters.erase cb })
        else (A, B))
      else ({ A with assigned_clusters := A.assigned_clusters.erase ca }, B)) := by
  have h0 : ∀ r : ℝ, 0 < r →
      Real.sqrt ((lat - lat) * (lat - lat) + (long - long) * (long - long)) < r := by
    intro r hr
    rw [show (lat - lat) * (lat - lat) + (long - long) * (long - long) = 0 from by ring,
      Real.sqrt_zero]
    exact hr
  have h1 : AIDrone.sharePhase1 A B = AIDrone.shareResolveOne A B ca (lat, long, da, sa) := by
    unfold AIDrone.sharePhase1
    rw [hA]
    rfl
  have h2 : AIDrone.shareResolveOne A B ca (lat, long, da, sa) =
      (if Real.sqrt ((B.x_km - lat) ^ 2 + (B.y_km - long) ^ 2) <
          Real.sqrt ((A.x_km - lat) ^ 2 + (A.y_km - long) ^ 2) * 0.7 then
        ({ A with assigned_clusters := A.assigned_clusters.erase ca }, B)
      else if Real.sqrt ((A.x_km - lat) ^ 2 + (A.y_km - long) ^ 2) <
          Real.sqrt ((B.x_km - lat) ^ 2 + (B.y_km - long) ^ 2) * 0.7 then
        (if cb ∈ B.assigned_clusters then
          ({ A with assigned_clusters := insert ca A.assigned_clusters },
            { B with assigned_clusters := B.assigned_clusters.erase cb })
        else (A, B))
      else if A.drone_id < B.drone_id then
        (if cb ∈ B.assigned_clusters then
          ({ A with assigned_clusters := insert ca A.assigned_clusters },
            { B with assigned_clusters := B.assigned_clusters.erase cb })
        else (A, B))
      else ({ A with assigned_clusters := A.assigned_clusters.erase ca }, B)) := by
    unfold AIDrone.shareResolveOne
    rw [hB]
    simp only [AIDrone.findSimilar]
    rw [if_pos (h0 _ hrA)]
  have h3 : ∀ X Y : AIDrone, X.active_clusters = [(ca, (lat, long, da, sa))] →
      X.cluster_radius = A.cluster_radius → X.grid_size = A.grid_size →
      Y.active_clusters = [(cb, (lat, long, db, sb))] →
      AIDrone.sharePhase2 X Y = X := by
    intro X Y hX hcr hgs hY
    unfold AIDrone.sharePhase2
    rw [hY]
    simp only [List.foldl_cons, List.foldl_nil]
    rw [hX]
    simp only [AIDrone.findSimilar]
    rw [hcr, hgs, if_pos (h0 _ hrA)]
  have hm : AIDrone.share_cluster_info A B =
      (AIDrone.sharePhase2 (AIDrone.shareResolveOne A B ca (lat, long, da, sa)).1
        (AIDrone.shareResolveOne A B ca (lat, long, da, sa)).2,
       (AIDrone.shareResolveOne A B ca (lat, long, da, sa)).2) := by
    unfold AIDrone.share_cluster_info
    rw [h1]
  rw [hm, h2]
  split_ifs with hb1 hb2 hmem hb3 hmem2
  · dsimp only
    rw [h3 { A with assigned_clusters := A.assigned_clusters.erase ca } B hA rfl rfl hB]
  · dsimp only
    rw [h3 { A with assigned_clusters := insert ca A.assigned_clusters }
      { B with assigned_clusters := B.assigned_clusters.erase cb } hA rfl rfl hB]
  · dsimp only
    rw [h3 A B hA rfl rfl hB]
  · dsimp only
    rw [h3 { A with assigned_clusters := insert ca A.assigned_clusters }
      { B with assigned_clusters := B.assigned_clusters.erase cb } hA rfl rfl hB]
  · dsimp only
    rw [h3 A B hA rfl rfl hB]
  · dsimp only
    rw [h3 { A with assigned_clusters := A.assigned_clusters.erase ca } B hA rfl rfl hB]

/-- C9: for two drones at fixed positions that each track one cluster and the
two clusters share a center (with positive matching radii and distinct drone
ids, both initially holding their cluster), one `_share_cluster_info` exchange
leaves exactly one of the two drones holding the cluster in its assigned set,
and re-running the exchange in either order is the identity: the owner is
stable with no oscillation. -/
theorem C9_theorem (A B : AIDrone) (ca cb : ℕ) (lat long da db : ℝ) (sa sb : ℕ)
    (hA : A.active_clusters = [(ca, (lat, long, da, sa))])
    (hB : B.active_clusters = [(cb, (lat, long, db, sb))])
    (hca : ca ∈ A.assigned_clusters) (hcb : cb ∈ B.assigned_clusters)
    (hrA : 0 < A.cluster_radius * A.grid_size)
    (hrB : 0 < B.cluster_radius * B.grid_size)
    (hid : A.drone_id ≠ B.drone_id) :
    ((ca ∈ (AIDrone.share_cluster_info A B).1.assigned_clusters) ↔
      ¬ (cb ∈ (AIDrone.share_cluster_info A B).2.assigned_clusters)) ∧
    AIDrone.share_cluster_info (AIDrone.share_cluster_info A B).1
        (AIDrone.share_cluster_info A B).2 =
      ((AIDrone.share_cluster_info A B).1, (AIDrone.share_cluster_info A B).2) ∧
    AIDrone.share_cluster_info (AIDrone.share_cluster_info A B).2
        (AIDrone.share_cluster_info A B).1 =
      ((AIDrone.share_cluster_info A B).2, (AIDrone.share_cluster_info A B).1) := by
  have hDA : (0 : ℝ) ≤ Real.sqrt ((A.x_km - lat) ^ 2 + (A.y_km - long) ^ 2) :=
    Real.sqrt_nonneg _
  have hDB : (0 : ℝ) ≤ Real.sqrt ((B.x_km - lat) ^ 2 + (B.y_km - long) ^ 2) :=
    Real.sqrt_nonneg _
  rw [AIDrone.share_singleton_eval A B ca cb lat long da db sa sb hA hB hrA]
  by_cases hb1 : Real.sqrt ((B.x_km - lat) ^ 2 + (B.y_km - long) ^ 2) <
      Real.sqrt ((A.x_km - lat) ^ 2 + (A.y_km - long) ^ 2) * 0.7
  · have hnb2 : ¬ (Real.sqrt ((A.x_km - lat) ^ 2 + (A.y_km - long) ^ 2) <
        Real.sqrt ((B.x_km - lat) ^ 2 + (B.y_km - long) ^ 2) * 0.7) := by
      intro h
      linarith
    rw [if_pos hb1]
    dsimp only
    refine ⟨by simp [hcb], ?_, ?_⟩
    · rw [AIDrone.share_singleton_eval
        { A with assigned_clusters := A.assigned_clusters.erase ca } B
        ca cb lat long da db sa sb hA hB hrA]
      dsimp only
      rw [if_pos hb1, Prod.mk.injEq]
      refine ⟨AIDrone.assigned_update_eq
        { A with assigned_clusters := A.assigned_clusters.erase ca } _ (by simp), rfl⟩
    · rw [AIDrone.share_singleton_eval B
        { A with assigned_clusters := A.assigned_clusters.erase ca }
        cb ca lat long db da sb sa hB hA hrB]
      dsimp only
      rw [if_neg hnb2, if_pos hb1, if_neg (Finset.not_mem_erase ca _)]
  · by_cases hb2 : Real.sqrt ((A.x_km - lat) ^ 2 + (A.y_km - long) ^ 2) <
        Real.sqrt ((B.x_km - lat) ^ 2 + (B.y_km - long) ^ 2) * 0.7
    · rw [if_neg hb1, if_pos hb2, if_pos hcb]
      dsimp only
      refine ⟨by simp, ?_, ?_⟩
      · rw [AIDrone.share_singleton_eval
          { A with assigned_clusters := insert ca A.assigned_clusters }
          { B with assigned_clusters := B.assigned_clusters.erase cb }
          ca cb lat long da db sa sb hA hB hrA]
        dsimp only
        rw [if_neg hb1, if_pos hb2, if_neg (Finset.not_mem_erase cb _)]
      · rw [AIDrone.share_singleton_eval
          { B with assigned_clusters := B.assigned_clusters.erase cb }
          { A with assigned_clusters := insert ca A.assigned_clusters }
          cb ca lat long db da sb sa hB hA hrB]
        dsimp only
        rw [if_pos hb2, Prod.mk.injEq]
        refine ⟨AIDrone.assigned_update_eq
          { B with assigned_clusters := B.assigned_clusters.erase cb } _ (by simp), rfl⟩
    · by_cases hb3 : A.drone_id < B.drone_id
      · have hnb3 : ¬ (B.drone_id < A.drone_id) := not_lt.mpr hb3.le
        rw [if_neg hb1, if_neg hb2, if_pos hb3, if_pos hcb]
        dsimp only
        refine ⟨by simp, ?_, ?_⟩
        · rw [AIDrone.share_singleton_eval
            { A with assigned_clusters := insert ca A.assigned_clusters }
            { B with assigned_clusters := B.assigned_clusters.erase cb }
            ca cb lat long da db sa sb hA hB hrA]
          dsimp only
          rw [if_neg hb1, if_neg hb2, if_pos hb3, if_neg (Finset.not_mem_erase cb _)]
        · rw [AIDrone.share_singleton_eval
            { B with assigned_clusters := B.assigned_clusters.erase cb }
            { A with assigned_clusters := insert ca A.assigned_clusters }
            cb ca lat long db da sb sa hB hA hrB]
          dsimp only
          rw [if_neg hb2, if_neg hb1, if_neg hnb3, Prod.mk.injEq]
          refine ⟨AIDrone.assigned_update_eq
            { B with assigned_clusters := B.assigned_clusters.erase cb } _ (by simp), rfl⟩
      · have hb3' : B.drone_id < A.drone_id :=
          lt_of_le_of_ne (not_lt.mp hb3) (Ne.symm hid)
        rw [if_neg hb1, if_neg hb2, if_neg hb3]
        dsimp only
        refine ⟨by simp [hcb], ?_, ?_⟩
        · rw [AIDrone.share_singleton_eval
            { A with assigned_clusters := A.assigned_clusters.erase ca } B
            ca cb lat long da db sa sb hA hB hrA]
          dsimp only
          rw [if_neg hb1, if_neg hb2, if_neg hb3, Prod.mk.injEq]
          refine ⟨AIDrone.assigned_update_eq
            { A with assigned_clusters := A.assigned_clusters.erase ca } _ (by simp), rfl⟩
        · rw [AIDrone.share_singleton_eval B
            { A with assigned_clusters := A.assigned_clusters.erase ca }
            cb ca lat long db da sb sa hB hA hrB]
          dsimp only
          rw [if_neg hb2, if_neg hb1, if_pos hb3', if_neg (Finset.not_mem_erase ca _)]

/-- C9 witness: the single-owner-and-stability conclusion instantiated at the
two concrete fixture drones with coincident clusters. -/
theorem C9_witness :
    aiP.active_clusters = [(0, (10, 10, 1, 0))] ∧
    aiQ.active_clusters = [(5, (10, 10, 1, 0))] ∧
    0 ∈ aiP.assigned_clusters ∧ 5 ∈ aiQ.assigned_clusters ∧
    0 < aiP.cluster_radius * aiP.grid_size ∧
    0 < aiQ.cluster_radius * aiQ.grid_size ∧
    aiP.drone_id ≠ aiQ.drone_id ∧
    (((0 ∈ (AIDrone.share_cluster_info aiP aiQ).1.assigned_clusters) ↔
        ¬ (5 ∈ (AIDrone.share_cluster_info aiP aiQ).2.assigned_clusters)) ∧
      AIDrone.share_cluster_info (AIDrone.share_cluster_info aiP aiQ).1
          (AIDrone.share_cluster_info aiP aiQ).2 =
        ((AIDrone.share_cluster_info aiP aiQ).1,
          (AIDrone.share_cluster_info aiP aiQ).2) ∧
      AIDrone.share_cluster_info (AIDrone.share_cluster_info aiP aiQ).2
          (AIDrone.share_cluster_info aiP aiQ).1 =
        ((AIDrone.share_cluster_info aiP aiQ).2,
          (AIDrone.share_cluster_info aiP aiQ).1)) :=
  ⟨rfl, rfl, by simp [aiP, aiG], by simp [aiQ, aiG],
    by norm_num [aiP, aiG], by norm_num [aiQ, aiG],
    by norm_num [aiP, aiQ, aiG],
    C9_theorem aiP aiQ 0 5 10 10 1 1 0 0 rfl rfl (by simp [aiP, aiG])
      (by simp [aiQ, aiG]) (by norm_num [aiP, aiG]) (by norm_num [aiQ, aiG])
      (by norm_num [aiP, aiQ, aiG])⟩

/-- A successful engine step preserves `current_step` and writes it into the
returned dictionary and the detection statistic. -/
theorem Engine.step_fields {D S : Type} (coordAll : List D → List D)
    (droneStep : D → OceanMap → D × Option ℝ)
    (sysStep : S → List D → OceanMap → Except String (S × ℝ))
    (e e' : Engine D S) (r : StepResult)
    (h : Engine.step coordAll droneStep sysStep e = Except.ok (e', r)) :
    e'.current_step = e.current_step ∧ r.step = e.current_step ∧
    r.particles_detected = e.current_step ∧
    e'.stats_total_particles_detected = e.current_step := by
  unfold Engine.step at h
  dsimp only at h
  cases hst : Engine.stepSystems sysStep
      (Engine.stepDrones droneStep e.ocean_map.step (Engine.coordPhase coordAll e)).1
      e.ocean_map.step e.catching_systems with
  | error msg =>
    rw [hst] at h
    exact absurd h (by simp)
  | ok st =>
    rw [hst] at h
    simp only [Except.ok.injEq, Prod.mk.injEq] at h
    obtain ⟨he, hr⟩ := h
    subst he
    subst hr
    exact ⟨rfl, rfl, rfl, rfl⟩

/-- Along any successful run, `current_step` is constant and the detection
statistic is either untouched or a copy of `current_step`. -/
theorem Engine.run_keeps {D S : Type} (coordAll : List D → List D)
    (droneStep : D → OceanMap → D × Option ℝ)
    (sysStep : S → List D → OceanMap → Except String (S × ℝ)) (n : ℕ) :
    ∀ e e' : Engine D S, Engine.run coordAll droneStep sysStep e n = Except.ok e' →
      e'.current_step = e.current_step ∧
      (e'.stats_total_particles_detected = e.stats_total_particles_detected ∨
        e'.stats_total_particles_detected = e.current_step) := by
  induction n with
  | zero =>
    intro e e' h
    simp only [Engine.run, Except.ok.injEq] at h
    subst h
    exact ⟨rfl, Or.inl rfl⟩
  | succ k ih =>
    intro e e' h
    rw [Engine.run] at h
    cases hst : Engine.step coordAll droneStep sysStep e with
    | error msg =>
      rw [hst] at h
      exact absurd h (by simp)
    | ok r =>
      rw [hst] at h
      have h1 := Engine.step_fields coordAll droneStep sysStep e r.1 r.2 (by rw [hst])
      obtain ⟨hcs, hdet⟩ := ih r.1 e' h
      refine ⟨hcs.trans h1.1, Or.inr ?_⟩
      rcases hdet with hd | hd
      · rw [hd, h1.2.2.2]
      · rw [hd, h1.1]

/-- C10: `current_step` starts at 0 and is never incremented by `step` or
`run`, so after any number of steps it is still 0; every `step` therefore
returns `step = particles_detected = current_step`, the
`total_particles_detected` statistic stays 0 for the whole run, and the
coordination gate `current_step % 5 == 0` is true on every tick. -/
theorem C10_theorem :
    (∀ (D S : Type) (m : OceanMap) (ds : List D) (ss : List S) (t : ℝ),
      (Engine.init m ds ss t).current_step = 0 ∧
      (Engine.init m ds ss t).stats_total_particles_detected = 0) ∧
    (∀ (D S : Type) (coordAll : List D → List D)
      (droneStep : D → OceanMap → D × Option ℝ)
      (sysStep : S → List D → OceanMap → Except String (S × ℝ))
      (e e' : Engine D S) (r : StepResult),
      Engine.step coordAll droneStep sysStep e = Except.ok (e', r) →
      e'.current_step = e.current_step ∧ r.step = e.current_step ∧
      r.particles_detected = e.current_step ∧
      e'.stats_total_particles_detected = e.current_step) ∧
    (∀ (D S : Type) (coordAll : List D → List D)
      (droneStep : D → OceanMap → D × Option ℝ)
      (sysStep : S → List D → OceanMap → Except String (S × ℝ))
      (n : ℕ) (m : OceanMap) (ds : List D) (ss : List S) (t : ℝ)
      (e' : Engine D S),
      Engine.run coordAll droneStep sysStep (Engine.init m ds ss t) n = Except.ok e' →
      e'.current_step = 0 ∧ e'.stats_total_particles_detected = 0 ∧
      e'.current_step % 5 = 0) ∧
    (∀ (D S : Type) (coordAll : List D → List D) (e : Engine D S),
      e.current_step % 5 = 0 → Engine.coordPhase coordAll e = coordAll e.drones) := by
  refine ⟨fun D S m ds ss t => ⟨rfl, rfl⟩,
    fun D S c d s e e' r h => Engine.step_fields c d s e e' r h,
    fun D S c d s n m ds ss t e' h => ?_,
    fun D S c e h => ?_⟩
  · obtain ⟨hcs, hdet⟩ := Engine.run_keeps c d s n (Engine.init m ds ss t) e' h
    refine ⟨hcs.trans rfl, ?_, ?_⟩
    · rcases hdet with hd | hd
      · exact hd.trans rfl
      · exact hd.trans rfl
    · rw [hcs]
      rfl
  · unfold Engine.coordPhase
    rw [if_pos h]

/-- C10 witness: the invariants instantiated at the concrete empty engine over
the fixture map, including one concretely evaluated step. -/
theorem C10_witness :
    (engW.current_step = 0 ∧ engW.stats_total_particles_detected = 0) ∧
    (engW'.current_step = engW.current_step ∧ resW.step = engW.current_step ∧
      resW.particles_detected = engW.current_step ∧
      engW'.stats_total_particles_detected = engW.current_step) ∧
    (engW.current_step = 0 ∧ engW.stats_total_particles_detected = 0 ∧
      engW.current_step % 5 = 0) ∧
    Engine.coordPhase (fun l => l) engW = engW.drones :=
  ⟨C10_theorem.1 PUnit PUnit mapE [] [] 300,
   C10_theorem.2.1 PUnit PUnit (fun l => l) (fun d _ => (d, none))
     (fun s _ _ => Except.ok (s, 0)) engW engW' resW rfl,
   C10_theorem.2.2.1 PUnit PUnit (fun l => l) (fun d _ => (d, none))
     (fun s _ _ => Except.ok (s, 0)) 0 mapE [] [] 300 engW rfl,
   C10_theorem.2.2.2 PUnit PUnit (fun l => l) engW rfl⟩

end DroneSim
